import Mathlib

/-!
# E-cell2024: payment dialog, team dashboard and FAQ accordion

A shallow embedding of three React components of the repository

* `src/IdeateX25/Components/PaymentDialog.jsx`
* `src/IdeateX25/Components/TeamDashboardPage.jsx`
* `src/components/End25/Faq/Faq.jsx`

Component state is an explicit record, every `setX(...)` call is a record
update, browser storage is an association list, and every effect that leaves
the component (a request, the checkout widget, a callback of the parent) is
appended to an event trace.  The outcome of each external call (does the
script load, what does the backend answer, does the parent callback throw) is
supplied by an environment record, so that every theorem quantifies over all
behaviours of the outside world.
-/

namespace ECell

/-! ## JavaScript values -/

/-- Truthiness of a JavaScript string: every string but the empty one. -/
def truthyStr (s : String) : Bool := !(s == "")

/-- Truthiness of a value that is a string or `undefined`/`null`. -/
def truthy : Option String → Bool
  | some s => truthyStr s
  | none => false

/-- The expression `a || d` for an optional string `a` and a string literal `d`. -/
def orElse (a : Option String) (d : String) : String :=
  match a with
  | some s => if truthyStr s then s else d
  | none => d

/-- The expression `a || b` where both operands may be `undefined`. -/
def orOpt (a b : Option String) : Option String :=
  if truthy a then a else b

/-- The first of a list of optional identifiers that is present, that is,
defined and non-empty; the reading of "first present of" used in the statements. -/
def firstPresent : List (Option String) → Option String
  | [] => none
  | a :: rest => if truthy a then a else firstPresent rest

/-- String coercion of an object field that may be `undefined`. -/
def strOfField : Option String → String
  | some s => s
  | none => "undefined"

/-- String coercion of a `localStorage.getItem` result that may be `null`. -/
def strOfItem : Option String → String
  | some s => s
  | none => "null"

/-- The white space and line terminator code points removed by `String.prototype.trim`. -/
def isJsWhiteSpace (c : Char) : Bool :=
  let n := c.toNat
  n == 0x09 || n == 0x0A || n == 0x0B || n == 0x0C || n == 0x0D || n == 0x20 ||
  n == 0xA0 || n == 0x1680 || (0x2000 ≤ n && n ≤ 0x200A) || n == 0x2028 ||
  n == 0x2029 || n == 0x202F || n == 0x205F || n == 0x3000 || n == 0xFEFF

/-- The test `!s.trim()`: the string consists of white space only. -/
def isBlank (s : String) : Bool := s.data.all isJsWhiteSpace

/-! ## Browser storage -/

/-- The contents of `localStorage`: keys with their string values. -/
abbrev Storage := List (String × String)

/-- The call `localStorage.getItem(key)`; `none` is `null`. -/
def getItem : Storage → String → Option String
  | [], _ => none
  | (k, v) :: rest, key => if k = key then some v else getItem rest key

/-- The call `localStorage.setItem(key, value)`. -/
def setItem : Storage → String → String → Storage
  | [], key, value => [(key, value)]
  | (k, v) :: rest, key, value =>
    if k = key then (key, value) :: rest else (k, v) :: setItem rest key value

/-- The header value built by the template string with the stored bearer token. -/
def authorization (s : Storage) : String :=
  "Bearer " ++ strOfItem (getItem s "ideatex_token")

/-! ## Errors thrown by requests -/

/-- The body of an error response, read as `err.response.data`. -/
structure ErrData where
  message : Option String
  deriving DecidableEq, Repr

/-- The server response attached to a thrown request error. -/
structure ErrResponse where
  data : Option ErrData
  deriving DecidableEq, Repr

/-- A thrown JavaScript error: its `message` and, for a request the server
answered with an error status, its `response`. -/
structure JsError where
  message : String
  response : Option ErrResponse
  deriving DecidableEq, Repr

/-- The expression `err.response?.data?.message`. -/
def JsError.responseMessage (err : JsError) : Option String :=
  match err.response with
  | none => none
  | some r =>
    match r.data with
    | none => none
    | some d => d.message

/-! ## Backend payloads shared by both components -/

/-- The team object of a backend response, with the identifier keys the client reads. -/
structure TeamObj where
  _id : Option String
  teamId : Option String
  id : Option String
  leaderId : Option String
  leader : Option String
  deriving DecidableEq, Repr

/-- The `data` object of a verify-payment or addTeam response. -/
structure TeamEnvelope where
  team : Option TeamObj
  deriving DecidableEq, Repr

/-- The body of a verify-payment response. -/
structure VerifyResp where
  success : Bool
  message : Option String
  data : Option TeamEnvelope
  deriving DecidableEq, Repr

/-- The argument the payment dialog passes to the `onSubmit` callback of its parent. -/
structure SubmitResult where
  transactionId : String
  teamName : String
  paymentVerified : Bool
  backendResponse : Option VerifyResp
  deriving DecidableEq, Repr

/-! ## PaymentDialog.jsx -/

namespace PaymentDialog

/-- The `data` object of a create-order response. -/
structure OrderData where
  orderId : Option String
  razorpayOrderId : Option String
  amount : Option Nat
  currency : Option String
  key : Option String
  deriving DecidableEq, Repr

/-- The body of a create-order response. -/
structure OrderResp where
  success : Bool
  data : Option OrderData
  message : Option String
  deriving DecidableEq, Repr

/-- The object the checkout widget hands to its completion callback. -/
structure WidgetResponse where
  razorpay_payment_id : String
  razorpay_order_id : String
  razorpay_signature : String
  deriving DecidableEq, Repr

/-- The body of the verify-payment request. -/
structure VerifyPayload where
  orderId : Option String
  razorpayOrderId : String
  razorpayPaymentId : String
  razorpaySignature : String
  deriving DecidableEq, Repr

/-- The `prefill` entry of the checkout options. -/
structure Prefill where
  name : String
  email : String
  contact : String
  deriving DecidableEq, Repr

/-- The options object passed to `new window.Razorpay(...)`, the handler apart. -/
structure CheckoutOptions where
  key : Option String
  amount : Option Nat
  currency : String
  name : String
  description : String
  order_id : Option String
  prefill : Prefill
  themeColor : String
  deriving DecidableEq, Repr

/-- The `formData` prop. -/
structure FormData where
  teamName : Option String
  name : Option String
  email : Option String
  contact : Option String
  deriving DecidableEq, Repr

/-- The props of the dialog that its logic reads; `amount` is in rupees and
defaults to 100 at the call site. -/
structure Props where
  isOpen : Bool
  formData : Option FormData
  amount : Nat
  deriving DecidableEq, Repr

/-- Everything the dialog does that is visible outside it. -/
inductive Event where
  | scriptAppended
  | createOrderRequest (teamId : String) (amount : Nat) (auth : String)
  | checkoutOpened (options : CheckoutOptions)
  | verifyRequest (payload : VerifyPayload) (auth : String)
  | onSubmit (result : SubmitResult)
  | onClose
  | consoleError
  deriving DecidableEq, Repr

/-- The three `useState` cells of the dialog. -/
structure DialogState where
  teamName : String
  isProcessing : Bool
  error : String
  deriving DecidableEq, Repr

/-- The part of the browser page the dialog touches: storage, whether the
element with id `razorpay-script` exists, and whether `window.Razorpay` is defined. -/
structure Page where
  storage : Storage
  scriptElement : Bool
  razorpay : Bool
  deriving DecidableEq, Repr

/-- The outside world during one run of `handlePayWithRazorpay`. -/
structure PayEnv where
  /-- whether a freshly appended script fires `onload` (`true`) or `onerror` -/
  scriptLoads : Bool
  /-- how the create-order request settles -/
  createOrderResult : Except JsError OrderResp
  /-- an exception of the widget constructor or of `open`, if any -/
  checkoutError : Option JsError

/-- The outside world during one run of the widget completion callback. -/
structure HandlerEnv where
  /-- how the verify-payment request settles -/
  verifyResult : Except JsError VerifyResp
  /-- an exception (rejection) of the parent callback, if any -/
  onSubmitError : Option JsError

/-- What the completion callback closes over: the order data and the team name
of the render in which the pay button was clicked. -/
structure HandlerClosure where
  data : OrderData
  teamName : String
  deriving DecidableEq, Repr

/-- The situation after (part of) a pay attempt. -/
structure PayResult where
  state : DialogState
  page : Page
  events : List Event
  /-- the callback registered with an opened checkout, if it was opened -/
  pending : Option HandlerClosure
  deriving DecidableEq, Repr

/-- The expression `formData?.teamName || ""`. -/
def formTeamName (props : Props) : String :=
  match props.formData with
  | none => ""
  | some f => orElse f.teamName ""

/-- The state of a freshly mounted dialog. -/
def initialState (props : Props) : DialogState :=
  { teamName := formTeamName props, isProcessing := false, error := "" }

/-- The effect that runs when `isOpen` or `formData` changes. -/
def onOpenEffect (props : Props) (st : DialogState) : DialogState :=
  if props.isOpen then { st with teamName := formTeamName props, error := "" } else st

/-- The function `loadRazorpayScript`: the resolved value, the page afterwards and the events. -/
def loadRazorpayScript (env : PayEnv) (page : Page) : Bool × Page × List Event :=
  if page.scriptElement then (true, page, [])
  else (env.scriptLoads,
        { page with scriptElement := true, razorpay := page.razorpay || env.scriptLoads },
        [Event.scriptAppended])

/-- The function `createOrder` with its default argument `amount * 100`; the
product is taken in the natural numbers, which is the value JavaScript
computes for every amount whose product stays below 2^53 (both call sites
pass the amount 1). -/
def createOrder (props : Props) (env : PayEnv) (page : Page) :
    Except JsError OrderResp × List Event :=
  let teamId := getItem page.storage "ideatex_teamID"
  if !truthy teamId then
    (.error { message := "teamId_missing", response := none }, [])
  else
    (env.createOrderResult,
     [Event.createOrderRequest (strOfItem teamId) (props.amount * 100) (authorization page.storage)])

/-- The function `verifyPayment`. -/
def verifyPayment (env : HandlerEnv) (page : Page) (payload : VerifyPayload) :
    Except JsError VerifyResp × List Event :=
  (env.verifyResult, [Event.verifyRequest payload (authorization page.storage)])

/-- The `options` object built from the order data. -/
def checkoutOptions (props : Props) (teamName : String) (data : OrderData) : CheckoutOptions :=
  { key := data.key
    amount := data.amount
    currency := orElse data.currency "INR"
    name := "IdeateX 2025"
    description := "Team registration - " ++ teamName
    order_id := data.razorpayOrderId
    prefill :=
      { name := match props.formData with | none => "" | some f => orElse f.name ""
        email := match props.formData with | none => "" | some f => orElse f.email ""
        contact := match props.formData with | none => "" | some f => orElse f.contact "" }
    themeColor := "#9700d1" }

/-- The statements `new window.Razorpay(options)` and `rzp.open()`: the thrown
error if the constructor is missing or the widget throws. -/
def openCheckout (env : PayEnv) (page : Page) : Option JsError :=
  if !page.razorpay then
    some { message := "window.Razorpay is not a constructor", response := none }
  else env.checkoutError

/-- The `try` block of `handlePayWithRazorpay`, entered with `isProcessing`
set: the situation when the block is left, and the error if it is left by a throw. -/
def payTry (props : Props) (env : PayEnv) (st : DialogState) (page : Page) :
    PayResult × Option JsError :=
  match loadRazorpayScript env page with
  | (ok, page1, ev1) =>
    if !ok then
      ({ state := { st with error := "Failed to load payment gateway. Try again later.",
                            isProcessing := false },
         page := page1, events := ev1, pending := none }, none)
    else
      match createOrder props env page1 with
      | (.error err, ev2) =>
        ({ state := st, page := page1, events := ev1 ++ ev2, pending := none }, some err)
      | (.ok orderResp, ev2) =>
        match orderResp.success, orderResp.data with
        | true, some data =>
          match openCheckout env page1 with
          | some err =>
            ({ state := st, page := page1, events := ev1 ++ ev2, pending := none }, some err)
          | none =>
            ({ state := st, page := page1,
               events := ev1 ++ ev2 ++ [Event.checkoutOpened (checkoutOptions props st.teamName data)],
               pending := some { data := data, teamName := st.teamName } }, none)
        | _, _ =>
          ({ state := { st with error := orElse orderResp.message "Failed to create payment order",
                                isProcessing := false },
             page := page1, events := ev1 ++ ev2, pending := none }, none)

/-- The `catch` block of `handlePayWithRazorpay`. -/
def payCatch (err : JsError) (r : PayResult) : PayResult :=
  let msg :=
    if err.message = "teamId_missing" then
      "teamId and amount are required — please create or select a team before paying."
    else if truthy err.responseMessage then
      orElse err.responseMessage "Payment failed to start. Try again."
    else "Payment failed to start. Try again."
  { r with state := { r.state with error := msg, isProcessing := false },
           events := r.events ++ [Event.consoleError] }

/-- The click handler of the pay button. -/
def handlePayWithRazorpay (props : Props) (env : PayEnv) (st : DialogState) (page : Page) :
    PayResult :=
  if !truthyStr st.teamName then
    { state := { st with error := "Please provide a team name before proceeding." },
      page := page, events := [], pending := none }
  else
    match payTry props env { st with isProcessing := true, error := "" } page with
    | (r, none) => r
    | (r, some err) => payCatch err r

/-- The `handler` entry of the checkout options: the completion callback of
the widget, run with the widget response. -/
def handler (c : HandlerClosure) (env : HandlerEnv) (response : WidgetResponse)
    (st : DialogState) (page : Page) : DialogState × List Event :=
  let payload : VerifyPayload :=
    { orderId := orOpt c.data.orderId c.data.razorpayOrderId
      razorpayOrderId := response.razorpay_order_id
      razorpayPaymentId := response.razorpay_payment_id
      razorpaySignature := response.razorpay_signature }
  match verifyPayment env page payload with
  | (.error err, ev) =>
    ({ st with error := orElse err.responseMessage "Payment verification failed",
               isProcessing := false },
     ev ++ [Event.consoleError])
  | (.ok verifyResp, ev) =>
    if verifyResp.success then
      let call := Event.onSubmit
        { transactionId := response.razorpay_payment_id
          teamName := c.teamName
          paymentVerified := true
          backendResponse := some verifyResp }
      match env.onSubmitError with
      | none => ({ st with isProcessing := false }, ev ++ [call])
      | some err =>
        ({ st with error := orElse err.responseMessage "Payment verification failed",
                   isProcessing := false },
         ev ++ [call, Event.consoleError])
    else
      ({ st with error := orElse verifyResp.message "Payment verification failed",
                 isProcessing := false }, ev)

/-- The click handlers of the close and cancel buttons: both call `onClose`. -/
def handleCancel : List Event := [Event.onClose]

/-- Whether a trace contains a create-order request. -/
def sentCreateOrder (evs : List Event) : Bool :=
  evs.any fun e => match e with | .createOrderRequest _ _ _ => true | _ => false

/-- Whether a trace contains a verify-payment request. -/
def sentVerify (evs : List Event) : Bool :=
  evs.any fun e => match e with | .verifyRequest _ _ => true | _ => false

/-- Whether a trace contains an opening of the external checkout. -/
def openedCheckout (evs : List Event) : Bool :=
  evs.any fun e => match e with | .checkoutOpened _ => true | _ => false

/-- The arguments of the `onSubmit` calls of a trace, in order. -/
def submitCalls (evs : List Event) : List SubmitResult :=
  evs.filterMap fun e => match e with | .onSubmit r => some r | _ => none

/-- Whether a trace contains a call of `onClose`. -/
def calledOnClose (evs : List Event) : Bool :=
  evs.any fun e => match e with | .onClose => true | _ => false

/-- Whether a trace contains the insertion of the checkout script element. -/
def appendedScript (evs : List Event) : Bool :=
  evs.any fun e => match e with | .scriptAppended => true | _ => false

/-- One pay attempt driven to its end: the click, and, when the checkout was
opened and the widget completes with `completion`, the completion callback.
The events of both parts are concatenated. -/
def payAttempt (props : Props) (env : PayEnv) (completion : Option (WidgetResponse × HandlerEnv))
    (st : DialogState) (page : Page) : DialogState × List Event :=
  let r := handlePayWithRazorpay props env st page
  match r.pending, completion with
  | some c, some (response, henv) =>
    let (st2, ev2) := handler c henv response r.state r.page
    (st2, r.events ++ ev2)
  | _, _ => (r.state, r.events)

/-- The `onClick` of the pay button, which is disabled while `isProcessing`
holds: a click on the disabled button runs nothing. -/
def clickPay (props : Props) (env : PayEnv) (st : DialogState) (page : Page) : PayResult :=
  if st.isProcessing then { state := st, page := page, events := [], pending := none }
  else handlePayWithRazorpay props env st page

/-- Successive clicks on the pay button on one page, one world per click: the
final state and page and the events of all clicks in order. -/
def payAttempts (props : Props) : List PayEnv → DialogState → Page →
    DialogState × Page × List Event
  | [], st, page => (st, page, [])
  | env :: rest, st, page =>
    let r := handlePayWithRazorpay props env st page
    let later := payAttempts props rest r.state r.page
    (later.1, later.2.1, r.events ++ later.2.2)

/-- How often a trace inserts the checkout script element. -/
def scriptInsertions (evs : List Event) : Nat :=
  evs.countP fun e => match e with | .scriptAppended => true | _ => false

end PaymentDialog

/-! ## TeamDashboardPage.jsx -/

namespace TeamDashboard

/-- One entry of `response.data.data.members`. -/
structure ApiMember where
  _id : String
  role : String
  userId : String
  teamId : Option String
  teamName : Option String
  teamCode : Option String
  isPendingPayment : Option Bool
  deriving DecidableEq, Repr

/-- The `data` object of a team/members response. -/
structure MembersData where
  members : Option (List ApiMember)
  isPendingPayment : Option Bool
  deriving DecidableEq, Repr

/-- The body of a team/members response. -/
structure MembersResp where
  success : Bool
  data : Option MembersData
  deriving DecidableEq, Repr

/-- The `user` object of a user-profile response. -/
structure UserData where
  name : Option String
  phone : Option String
  libId : Option String
  gender : Option String
  email : Option String
  rollNo : Option String
  college : Option String
  deriving DecidableEq, Repr

/-- The `data` object of a user-profile response. -/
structure UserEnvelope where
  user : Option UserData
  deriving DecidableEq, Repr

/-- The body of a user-profile response. -/
structure UserResp where
  data : Option UserEnvelope
  deriving DecidableEq, Repr

/-- A member as the dashboard keeps it after enrichment. -/
structure Member where
  id : String
  name : String
  year : String
  role : String
  contact : String
  libraryId : String
  gender : String
  email : String
  rollNo : String
  college : String
  deriving DecidableEq, Repr

/-- The `leader` entry of the transformed team data. -/
structure Leader where
  name : Option String
  year : Option String
  libraryId : Option String
  gender : Option String
  deriving DecidableEq, Repr

/-- The `teamData` state; `isPendingPayment` is the property the render reads. -/
structure TeamData where
  id : Option String
  name : Option String
  code : Option String
  leader : Leader
  createdAt : String
  members : List Member
  isPendingPayment : Option Bool
  deriving DecidableEq, Repr

/-- The `data` object of a joinTeam response. -/
structure JoinData where
  team : Option TeamObj
  userId : Option String
  deriving DecidableEq, Repr

/-- The body of a joinTeam response. -/
structure JoinResp where
  success : Bool
  message : Option String
  data : Option JoinData
  deriving DecidableEq, Repr

/-- The body of an addTeam response. -/
structure AddTeamResp where
  success : Bool
  message : Option String
  data : Option TeamEnvelope
  deriving DecidableEq, Repr

/-- Everything the dashboard does that is visible outside it, and the calls of
`fetchTeamMembers`. -/
inductive Event where
  | fetchTeamMembersCalled
  | membersRequest (teamId : String) (auth : String)
  | userRequest (userId : String) (auth : String)
  | joinTeamRequest (teamCode : String) (auth : String)
  | addTeamRequest (teamName : String) (auth : String)
  | timeoutScheduled (delayMs : Nat) (href : String)
  | navigate (path : String)
  | consoleError
  deriving DecidableEq, Repr

/-- The `useState` cells of the dashboard; `error` is `none` when it holds `undefined`. -/
structure State where
  teamData : TeamData
  loading : Bool
  initializing : Bool
  error : Option String
  hasTeam : Bool
  showJoinPopup : Bool
  teamCode : String
  showPaymentDialog : Bool
  showCreateTeamModal : Bool
  creatingTeamName : String
  deriving DecidableEq, Repr

/-- The state of a freshly mounted dashboard; `teamData` starts as
`location.state?.teamData || DUMMY_TEAM`, passed in here. -/
def initialState (teamData : TeamData) : State :=
  { teamData := teamData, loading := false, initializing := true, error := some "",
    hasTeam := false, showJoinPopup := false, teamCode := "", showPaymentDialog := false,
    showCreateTeamModal := false, creatingTeamName := "" }

/-- The state setters that `fetchTeamMembers` calls. -/
inductive Setter where
  | setLoading (b : Bool)
  | setHasTeam (b : Bool)
  | setTeamData (t : TeamData)
  | setInitializing (b : Bool)
  deriving DecidableEq, Repr

/-- The effect of one setter call on the state. -/
def Setter.apply (st : State) : Setter → State
  | .setLoading b => { st with loading := b }
  | .setHasTeam b => { st with hasTeam := b }
  | .setTeamData t => { st with teamData := t }
  | .setInitializing b => { st with initializing := b }

/-- The state after a sequence of setter calls. -/
def applySetters (st : State) (setters : List Setter) : State :=
  setters.foldl Setter.apply st

/-- The outside world during one run of `fetchTeamMembers`. -/
structure FetchEnv where
  /-- how the team/members request settles -/
  membersResult : Except JsError MembersResp
  /-- how the profile request of the member at each position settles -/
  userResult : Nat → Except JsError UserResp
  /-- the value of `new Date().toISOString()` -/
  now : String

/-- The user object the `try` block of the enrichment callback works with, or
`none` when the block throws: the request fails, or `data` or `user` is missing. -/
def fetchedUser : Except JsError UserResp → Option UserData
  | .error _ => none
  | .ok resp =>
    match resp.data with
    | none => none
    | some d => d.user

/-- The object returned by the enrichment callback for one member. -/
def enrichMember (member : ApiMember) (result : Except JsError UserResp) : Member :=
  match fetchedUser result with
  | some userData =>
    { id := member._id
      name := orElse userData.name "Unknown"
      year := "N/A"
      role := member.role
      contact := if truthy userData.phone then "+91-" ++ strOfField userData.phone else "N/A"
      libraryId := orElse userData.libId "N/A"
      gender := orElse userData.gender "N/A"
      email := orElse userData.email "N/A"
      rollNo := orElse userData.rollNo "N/A"
      college := orElse userData.college "N/A" }
  | none =>
    { id := member._id
      name := "Unknown Member"
      year := "N/A"
      role := member.role
      contact := "N/A"
      libraryId := "N/A"
      gender := "N/A"
      email := "N/A"
      rollNo := "N/A"
      college := "N/A" }

/-- The array `membersWithDetails`: the enrichment callback mapped over the members. -/
def membersWithDetails (env : FetchEnv) (apiMembers : List ApiMember) : List Member :=
  apiMembers.enum.map fun p => enrichMember p.2 (env.userResult p.1)

/-- The expression `xs.find((m) => m.role === "LEADER") || xs[0]` on the API members. -/
def leaderMember (apiMembers : List ApiMember) : Option ApiMember :=
  match apiMembers.find? (fun m => m.role == "LEADER") with
  | some m => some m
  | none => apiMembers.head?

/-- The expression `xs.find((m) => m.role === "LEADER") || xs[0]` on the enriched members. -/
def leaderDetails (members : List Member) : Option Member :=
  match members.find? (fun m => m.role == "LEADER") with
  | some m => some m
  | none => members.head?

/-- The object `transformedTeamData`. -/
def transformedTeamData (env : FetchEnv) (apiMembers : List ApiMember) : TeamData :=
  let members := membersWithDetails env apiMembers
  let lm := leaderMember apiMembers
  let ld := leaderDetails members
  { id := lm.bind (·.teamId)
    name := lm.bind (·.teamName)
    code := lm.bind (·.teamCode)
    leader :=
      { name := ld.map (·.name)
        year := ld.map (·.year)
        libraryId := ld.map (·.libraryId)
        gender := ld.map (·.gender) }
    createdAt := env.now
    members := members
    isPendingPayment := none }

/-- The function `fetchTeamMembers`: its setter calls in program order and its events. -/
def fetchTeamMembers (env : FetchEnv) (storage : Storage) : List Setter × List Event :=
  let teamId := getItem storage "ideatex_teamID"
  let auth := authorization storage
  let finallyBlock := [Setter.setLoading false, Setter.setInitializing false]
  if !truthy teamId then
    ([Setter.setLoading true, Setter.setHasTeam false] ++ finallyBlock,
     [Event.fetchTeamMembersCalled])
  else
    let request := Event.membersRequest (strOfItem teamId) auth
    match env.membersResult with
    | .error _ =>
      ([Setter.setLoading true, Setter.setHasTeam false] ++ finallyBlock,
       [Event.fetchTeamMembersCalled, request])
    | .ok resp =>
      if resp.success then
        match resp.data with
        | none =>
          ([Setter.setLoading true, Setter.setHasTeam false] ++ finallyBlock,
           [Event.fetchTeamMembersCalled, request])
        | some d =>
          let apiMembers := d.members.getD []
          ([Setter.setLoading true, Setter.setTeamData (transformedTeamData env apiMembers),
            Setter.setHasTeam true] ++ finallyBlock,
           [Event.fetchTeamMembersCalled, request] ++
             apiMembers.map fun m => Event.userRequest m.userId auth)
      else
        ([Setter.setLoading true, Setter.setHasTeam false] ++ finallyBlock,
         [Event.fetchTeamMembersCalled, request])

/-- The mount effect: redirect when unauthenticated, fetch otherwise. -/
def onMount (isAuthenticated : Bool) (env : FetchEnv) (st : State) (storage : Storage) :
    State × List Event :=
  if !isAuthenticated then (st, [Event.navigate "/ideatex/login"])
  else
    let run := fetchTeamMembers env storage
    (applySetters st run.1, run.2)

/-- The four views the component can return. -/
inductive View where
  | loading
  | noTeam
  | paymentPending
  | dashboard
  deriving DecidableEq, Repr

/-- The immediately invoked function `paymentPending` of the render. -/
def paymentPending (st : State) : Bool :=
  st.teamData.isPendingPayment == some true

/-- Which view the render returns. -/
def view (st : State) : View :=
  if st.initializing then View.loading
  else if !st.hasTeam then View.noTeam
  else if paymentPending st then View.paymentPending
  else View.dashboard

/-- The team code shown by the payment-pending prompt. -/
def pendingPromptCode (st : State) : String :=
  orElse (orOpt st.teamData.code st.teamData.id) "N/A"

/-- The props of the payment dialog rendered by the current view, if it renders one. -/
def paymentDialogProps (st : State) : Option PaymentDialog.Props :=
  match view st with
  | View.noTeam =>
    some { isOpen := st.showPaymentDialog
           formData := some { teamName := some st.creatingTeamName, name := none,
                              email := none, contact := none }
           amount := 1 }
  | View.paymentPending =>
    some { isOpen := st.showPaymentDialog
           formData := some { teamName := st.teamData.name, name := none,
                              email := none, contact := none }
           amount := 1 }
  | _ => none

/-- The function `handleRemoveMember`. -/
def handleRemoveMember (memberId : String) (st : State) : State :=
  { st with teamData :=
      { st.teamData with members := st.teamData.members.filter fun m => m.id != memberId } }

/-- The length of a JavaScript string, in UTF-16 code units. -/
def jsLength (s : String) : Nat :=
  s.data.foldl (fun n c => n + (if c.toNat < 0x10000 then 1 else 2)) 0

/-- The `disabled` attribute of the join button. -/
def joinDisabled (st : State) : Bool :=
  jsLength st.teamCode != 6 || st.loading

/-- The situation after a handler of the dashboard has run. -/
structure Outcome where
  state : State
  storage : Storage
  events : List Event
  deriving DecidableEq, Repr

/-- The outside world during one run of `handleJoinSubmit`. -/
structure JoinEnv where
  /-- how the joinTeam request settles -/
  joinResult : Except JsError JoinResp
  /-- the world of the membership fetch that follows a successful join -/
  fetch : FetchEnv

/-- The `catch` and `finally` blocks of `handleJoinSubmit`. -/
def joinCatch (err : JsError) (st : State) (storage : Storage) (events : List Event) : Outcome :=
  { state := { st with error := some (orElse err.responseMessage "Failed to join team"),
                       loading := false },
    storage := storage, events := events }

/-- The error raised by reading a property of `undefined`. -/
def typeError : JsError :=
  { message := "Cannot read properties of undefined", response := none }

/-- The function `handleJoinSubmit`. -/
def handleJoinSubmit (env : JoinEnv) (st : State) (storage : Storage) : Outcome :=
  if isBlank st.teamCode then
    { state := { st with error := some "Team code is required" }, storage := storage, events := [] }
  else
    let st1 := { st with loading := true }
    let request := Event.joinTeamRequest st.teamCode (authorization storage)
    match env.joinResult with
    | .error err => joinCatch err st1 storage [request]
    | .ok resp =>
      if resp.success then
        match resp.data with
        | none => joinCatch typeError st1 storage [request]
        | some d =>
          match d.team with
          | none => joinCatch typeError st1 storage [request]
          | some team =>
            let storage1 := setItem storage "ideatex_teamID" (strOfField team._id)
            let storage2 := setItem storage1 "ideatex_userID" (strOfField d.userId)
            let timer := Event.timeoutScheduled 2000 "/ideatex/dashboard"
            let st2 := { st1 with showJoinPopup := false }
            let run := fetchTeamMembers env.fetch storage2
            { state := { applySetters st2 run.1 with loading := false },
              storage := storage2,
              events := [request, timer] ++ run.2 }
      else
        { state := { st1 with error := resp.message, loading := false },
          storage := storage, events := [request] }

/-- The click handler of the join button, which a disabled button does not run. -/
def clickJoin (env : JoinEnv) (st : State) (storage : Storage) : Outcome :=
  if joinDisabled st then { state := st, storage := storage, events := [] }
  else handleJoinSubmit env st storage

/-- The expression `paymentData.backendResponse?.success`. -/
def backendSuccess (paymentData : SubmitResult) : Bool :=
  match paymentData.backendResponse with
  | none => false
  | some r => r.success

/-- The expression `paymentData.backendResponse?.message`. -/
def backendMessage (paymentData : SubmitResult) : Option String :=
  match paymentData.backendResponse with
  | none => none
  | some r => r.message

/-- The expression `paymentData.backendResponse.data.team`, or `none` when
reading it, or a property of it, throws. -/
def backendTeam (paymentData : SubmitResult) : Option TeamObj :=
  match paymentData.backendResponse with
  | none => none
  | some r =>
    match r.data with
    | none => none
    | some d => d.team

/-- The `catch` block of `handlePaymentSubmit`. -/
def paymentCatch (st : State) (storage : Storage) : Outcome :=
  { state := { st with error := some "Failed to create team" }, storage := storage,
    events := [Event.consoleError] }

/-- The function `handlePaymentSubmit`, the `onSubmit` prop of the payment dialog. -/
def handlePaymentSubmit (env : FetchEnv) (paymentData : SubmitResult) (st : State)
    (storage : Storage) : Outcome :=
  if paymentData.paymentVerified && backendSuccess paymentData then
    match backendTeam paymentData with
    | none => paymentCatch st storage
    | some team =>
      let teamId := orOpt (orOpt team._id team.teamId) team.id
      let leaderId := orOpt (orOpt team.leaderId team.leader) team.leaderId
      let storage1 :=
        if truthy teamId then setItem storage "ideatex_teamID" (strOfField teamId) else storage
      let storage2 :=
        if truthy leaderId then setItem storage1 "ideatex_userID" (strOfField leaderId)
        else storage1
      let st1 := { st with showPaymentDialog := false }
      let run := fetchTeamMembers env storage2
      { state := applySetters st1 run.1, storage := storage2, events := run.2 }
  else
    { state := { st with error := some (orElse (backendMessage paymentData) "Failed to create team") },
      storage := storage, events := [] }

/-- The `onChange` of the name input of the creation modal. -/
def handleNameChange (value : String) (st : State) : State :=
  { st with creatingTeamName := value }

/-- The outside world during one run of `handleCreateTeamRequest`. -/
structure CreateEnv where
  /-- how the addTeam request settles; the body of a response may be missing -/
  addTeamResult : Except JsError (Option AddTeamResp)
  /-- the successive contents typed into the name input, which stays editable,
  while the request is pending -/
  nameEdits : List String

/-- The state in which the addTeam request settles: every edit of the name
input made while the request is pending has run `setCreatingTeamName`. -/
def whilePending (env : CreateEnv) (st : State) : State :=
  env.nameEdits.foldl (fun s value => handleNameChange value s) st

/-- The content of the name input after a sequence of edits: the last typed
value, or the current one when nothing was typed. -/
def lastTyped (edits : List String) (current : String) : String :=
  edits.foldl (fun _ value => value) current

/-- The `catch` and `finally` blocks of `handleCreateTeamRequest`. -/
def createCatch (err : JsError) (st : State) (storage : Storage) (events : List Event) : Outcome :=
  { state := { st with error := some (orElse err.responseMessage "Failed to create team."),
                       loading := false },
    storage := storage, events := events ++ [Event.consoleError] }

/-- The function `handleCreateTeamRequest`.  The setter calls after the
`await` act on the state as the edits made during the request left it. -/
def handleCreateTeamRequest (env : CreateEnv) (teamName : String) (st : State)
    (storage : Storage) : Outcome :=
  if !truthyStr teamName || isBlank teamName then
    { state := { st with error := some "Team name is required" }, storage := storage, events := [] }
  else
    let st1 := whilePending env { st with error := some "", loading := true }
    let request := Event.addTeamRequest teamName (authorization storage)
    match env.addTeamResult with
    | .error err => createCatch err st1 storage [request]
    | .ok none =>
      { state := { st1 with error := some "Failed to create team", loading := false },
        storage := storage, events := [request] }
    | .ok (some resp) =>
      if resp.success then
        match resp.data with
        | none => createCatch typeError st1 storage [request]
        | some d =>
          match d.team with
          | none => createCatch typeError st1 storage [request]
          | some team =>
            let storage1 := setItem storage "ideatex_teamID"
              (strOfField (orOpt (orOpt team._id team.teamId) team.id))
            let userId :=
              if truthy team.leaderId then strOfField team.leaderId
              else strOfItem (getItem storage1 "ideatex_userID")
            let storage2 := setItem storage1 "ideatex_userID" userId
            { state := { st1 with showCreateTeamModal := false, showPaymentDialog := true,
                                  loading := false },
              storage := storage2, events := [request] }
      else
        { state := { st1 with error := some (orElse resp.message "Failed to create team"),
                              loading := false },
          storage := storage, events := [request] }

/-- The click handler of the create button of the creation modal. -/
def clickCreate (env : CreateEnv) (st : State) (storage : Storage) : Outcome :=
  handleCreateTeamRequest env st.creatingTeamName st storage

/-- Whether a trace contains a call of `fetchTeamMembers`. -/
def refetched (evs : List Event) : Bool :=
  evs.any fun e => match e with | .fetchTeamMembersCalled => true | _ => false

/-- Whether a trace contains an addTeam request. -/
def sentAddTeam (evs : List Event) : Bool :=
  evs.any fun e => match e with | .addTeamRequest _ _ => true | _ => false

/-- Whether a trace contains a joinTeam request. -/
def sentJoinTeam (evs : List Event) : Bool :=
  evs.any fun e => match e with | .joinTeamRequest _ _ => true | _ => false

/-- The delays of the page reloads a trace schedules, in order. -/
def scheduledReloads (evs : List Event) : List Nat :=
  evs.filterMap fun e => match e with | .timeoutScheduled d _ => some d | _ => none

/-- A whole call of `handleRemoveMember`: the state update, and nothing else;
the function reads no storage and issues no request. -/
def removeMember (memberId : String) (st : State) (storage : Storage) : Outcome :=
  { state := handleRemoveMember memberId st, storage := storage, events := [] }

end TeamDashboard

/-! ## Faq.jsx -/

namespace Faq

/-- The `openIndex` state of `FAQSection`: `none` is `null`. -/
abbrev OpenIndex := Option Nat

/-- The initial value of `openIndex`. -/
def initialOpenIndex : OpenIndex := none

/-- The function `handleItemClick`. -/
def handleItemClick (openIndex : OpenIndex) (index : Nat) : OpenIndex :=
  if openIndex = some index then none else some index

/-- The `isOpen` prop handed to the item at `index`. -/
def isOpen (openIndex : OpenIndex) (index : Nat) : Bool :=
  openIndex == some index

/-- The `openIndex` state after a sequence of clicks on items, from the initial state. -/
def afterClicks (clicks : List Nat) : OpenIndex :=
  clicks.foldl handleItemClick initialOpenIndex

end Faq

/-! ## Sample inputs for the closed statements -/

namespace Samples

open PaymentDialog in
/-- A dialog opened for the team "Alpha", charging one rupee. -/
def props : Props :=
  { isOpen := true
    formData := some { teamName := some "Alpha", name := none, email := none, contact := none }
    amount := 1 }

open PaymentDialog in
/-- The state of that dialog before the pay button is clicked. -/
def dialog : DialogState := { teamName := "Alpha", isProcessing := false, error := "" }

open PaymentDialog in
/-- A page of a logged-in user without a team, before any script was added. -/
def pageNoTeam : Page :=
  { storage := [("ideatex_token", "tok")], scriptElement := false, razorpay := false }

open PaymentDialog in
/-- A page of a logged-in user whose team identifier is stored. -/
def pageTeam : Page :=
  { storage := [("ideatex_token", "tok"), ("ideatex_teamID", "team42")],
    scriptElement := false, razorpay := false }

open PaymentDialog in
/-- An order as the backend issues it. -/
def orderData : OrderData :=
  { orderId := some "ord1", razorpayOrderId := some "rzp1", amount := some 100,
    currency := some "INR", key := some "key1" }

open PaymentDialog in
/-- A world in which the checkout script fails to load. -/
def envScriptFails : PayEnv :=
  { scriptLoads := false
    createOrderResult := .ok { success := true, data := some orderData, message := none }
    checkoutError := none }

open PaymentDialog in
/-- A world in which the script loads and the order is created. -/
def envOrderCreated : PayEnv :=
  { scriptLoads := true
    createOrderResult := .ok { success := true, data := some orderData, message := none }
    checkoutError := none }

open PaymentDialog in
/-- A world in which the script loads and the backend rejects the order. -/
def envOrderRejected : PayEnv :=
  { scriptLoads := true
    createOrderResult := .ok { success := false, data := none, message := some "Team already paid" }
    checkoutError := none }

open PaymentDialog in
/-- The proof object the widget delivers on completion. -/
def widgetResponse : WidgetResponse :=
  { razorpay_payment_id := "pay_1", razorpay_order_id := "rzp1", razorpay_signature := "sig" }

/-- A verify-payment response that confirms the payment and returns the team. -/
def verifyOk : VerifyResp :=
  { success := true, message := none
    data := some { team := some { _id := some "team42", teamId := none, id := none,
                                  leaderId := some "user7", leader := none } } }

open PaymentDialog in
/-- A world in which verification succeeds and the parent callback returns. -/
def henvVerified : HandlerEnv := { verifyResult := .ok verifyOk, onSubmitError := none }

open PaymentDialog in
/-- A world in which the verification request fails without a server response. -/
def henvNetworkError : HandlerEnv :=
  { verifyResult := .error { message := "Network Error", response := none }
    onSubmitError := none }

open PaymentDialog in
/-- The closure of the completion callback for the sample order. -/
def closure : HandlerClosure := { data := orderData, teamName := "Alpha" }

open TeamDashboard in
/-- The leader entry of a membership response for a team whose payment is pending. -/
def leaderEntry : ApiMember :=
  { _id := "m1", role := "LEADER", userId := "user7", teamId := some "team42",
    teamName := some "Alpha", teamCode := some "ABCDEF", isPendingPayment := some true }

open TeamDashboard in
/-- A second entry of that membership response. -/
def memberEntry : ApiMember :=
  { _id := "m2", role := "MEMBER", userId := "user8", teamId := some "team42",
    teamName := some "Alpha", teamCode := some "ABCDEF", isPendingPayment := some true }

open TeamDashboard in
/-- A profile that carries a name and a library id, an empty roll number and
no email address. -/
def profile : UserData :=
  { name := some "Asha", phone := none, libId := some "LIB9", gender := none, email := none,
    rollNo := some "", college := none }

open TeamDashboard in
/-- A world in which the membership request succeeds for a team flagged as
payment-pending, the first profile request succeeds and every other one fails. -/
def fetchEnv : FetchEnv :=
  { membersResult := .ok { success := true
                           data := some { members := some [leaderEntry, memberEntry]
                                          isPendingPayment := some true } }
    userResult := fun i =>
      if i = 0 then .ok { data := some { user := some profile } }
      else .error { message := "Network Error", response := none }
    now := "2025-01-01T00:00:00.000Z" }

open TeamDashboard in
/-- A world in which the membership request is answered with `success` false. -/
def fetchEnvRejected : FetchEnv :=
  { membersResult := .ok { success := false, data := none }
    userResult := fun _ => .error { message := "Network Error", response := none }
    now := "2025-01-01T00:00:00.000Z" }

open TeamDashboard in
/-- The placeholder team the dashboard starts with. -/
def placeholderTeam : TeamData :=
  { id := some "DUMMY123", name := some "Team Example", code := some "ABCDEF",
    leader := { name := none, year := none, libraryId := none, gender := none },
    createdAt := "2025-01-01T00:00:00.000Z", members := [], isPendingPayment := none }

/-- The storage of a logged-in user whose team identifier is stored. -/
def storageTeam : Storage := [("ideatex_token", "tok"), ("ideatex_teamID", "team42")]

/-- The storage of a logged-in user without a team. -/
def storageNoTeam : Storage := [("ideatex_token", "tok")]

open TeamDashboard in
/-- The dashboard of a user without a team who typed "Alpha" into the creation modal. -/
def creating : State :=
  { initialState placeholderTeam with
    initializing := false, showCreateTeamModal := true, creatingTeamName := "Alpha" }

open TeamDashboard in
/-- The dashboard of a user without a team who typed a code into the join popup. -/
def joining : State :=
  { initialState placeholderTeam with
    initializing := false, showJoinPopup := true, teamCode := "ABCDEF" }

/-- The team object of a well-formed addTeam, joinTeam or verify-payment response. -/
def teamObj : TeamObj :=
  { _id := some "team42", teamId := none, id := none, leaderId := some "user7", leader := none }

open TeamDashboard in
/-- A world in which addTeam answers `success` true with the team. -/
def createEnvOk : CreateEnv :=
  { addTeamResult := .ok (some { success := true, message := none,
                                 data := some { team := some teamObj } })
    nameEdits := [] }

open TeamDashboard in
/-- A world in which addTeam answers `success` true with the team, and the
user replaces the content of the name input by "Beta" before the answer arrives. -/
def createEnvEdited : CreateEnv :=
  { addTeamResult := .ok (some { success := true, message := none,
                                 data := some { team := some teamObj } })
    nameEdits := ["Alph", "", "Beta"] }

open TeamDashboard in
/-- A world in which addTeam answers `success` true without a `data` object. -/
def createEnvNoData : CreateEnv :=
  { addTeamResult := .ok (some { success := true, message := none, data := none })
    nameEdits := [] }

open TeamDashboard in
/-- A world in which joinTeam answers `success` true with team and user identifiers. -/
def joinEnvOk : JoinEnv :=
  { joinResult := .ok { success := true, message := none,
                        data := some { team := some teamObj, userId := some "user9" } }
    fetch := fetchEnv }

open TeamDashboard in
/-- A world in which joinTeam answers `success` true without a `data` object. -/
def joinEnvNoData : JoinEnv :=
  { joinResult := .ok { success := true, message := none, data := none }
    fetch := fetchEnv }

/-- The result the payment dialog reports after a verified payment. -/
def submitResult : SubmitResult :=
  { transactionId := "pay_1", teamName := "Alpha", paymentVerified := true,
    backendResponse := some verifyOk }

open TeamDashboard in
/-- An enriched member with the given id and name. -/
def member (id name : String) : Member :=
  { id := id, name := name, year := "N/A", role := "MEMBER", contact := "N/A",
    libraryId := "N/A", gender := "N/A", email := "N/A", rollNo := "N/A", college := "N/A" }

open TeamDashboard in
/-- A dashboard that holds a team of three members, two of them with the id "m2". -/
def withMembers : State :=
  { initialState { placeholderTeam with
      members := [member "m1" "Asha", member "m2" "Ravi", member "m2" "Ravi again"] } with
    initializing := false, hasTeam := true }

open TeamDashboard in
/-- The join popup with a code of three characters typed in. -/
def joiningShort : State :=
  { initialState placeholderTeam with
    initializing := false, showJoinPopup := true, teamCode := "ABC" }

end Samples

/-! ## Storage and truthiness lemmas -/

theorem truthyStr_iff (s : String) : truthyStr s = true ↔ s ≠ "" := by
  simp [truthyStr]

theorem truthy_eq_false_iff (a : Option String) : truthy a = false ↔ a = none ∨ a = some "" := by
  cases a with
  | none => simp [truthy]
  | some s => simp [truthy, truthyStr]

theorem orElse_of_ne (s d : String) (h : s ≠ "") : orElse (some s) d = s := by
  simp [orElse, truthyStr, h]

theorem orElse_ne_empty (a : Option String) (d : String) (hd : d ≠ "") : orElse a d ≠ "" := by
  cases a with
  | none => simpa [orElse] using hd
  | some s =>
    by_cases h : s = ""
    · simpa [orElse, truthyStr, h] using hd
    · simp [orElse, truthyStr, h]

theorem getItem_setItem_same (s : Storage) (key value : String) :
    getItem (setItem s key value) key = some value := by
  induction s with
  | nil => simp [setItem, getItem]
  | cons p rest ih =>
    obtain ⟨k, v⟩ := p
    by_cases h : k = key
    · simp [setItem, getItem, h]
    · simp [setItem, getItem, h, ih]

theorem getItem_setItem_other (s : Storage) (key value other : String) (h : key ≠ other) :
    getItem (setItem s key value) other = getItem s other := by
  induction s with
  | nil => simp [setItem, getItem, h]
  | cons p rest ih =>
    obtain ⟨k, v⟩ := p
    by_cases hk : k = key
    · subst hk
      simp [setItem, getItem, h]
    · by_cases ho : k = other
      · subst ho
        simp [setItem, getItem, hk]
      · simp [setItem, getItem, hk, ho, ih]

theorem truthy_true_some (a : Option String) (h : truthy a = true) :
    some (strOfField a) = a := by
  cases a with
  | none => simp [truthy] at h
  | some s => rfl

theorem firstPresent_three (a b c : Option String) :
    (truthy (orOpt (orOpt a b) c) = true →
      firstPresent [a, b, c] = some (strOfField (orOpt (orOpt a b) c))) ∧
    (truthy (orOpt (orOpt a b) c) = false → firstPresent [a, b, c] = none) := by
  cases ha : truthy a <;> cases hb : truthy b <;> cases hc : truthy c <;>
    simp [orOpt, firstPresent, ha, hb, hc, truthy_true_some]

theorem firstPresent_leader (a b : Option String) :
    (truthy (orOpt (orOpt a b) a) = true →
      firstPresent [a, b] = some (strOfField (orOpt (orOpt a b) a))) ∧
    (truthy (orOpt (orOpt a b) a) = false → firstPresent [a, b] = none) := by
  cases ha : truthy a <;> cases hb : truthy b <;>
    simp [orOpt, firstPresent, ha, hb, truthy_true_some]

theorem isBlank_of_not_truthy (s : String) (h : truthyStr s = false) : isBlank s = true := by
  have hs : s = "" := by simpa [truthyStr] using h
  subst hs
  rfl

theorem blank_guard (s : String) : (!truthyStr s || isBlank s) = isBlank s := by
  cases h : truthyStr s
  · simp [isBlank_of_not_truthy s h]
  · simp

/-! ## Payment dialog -/

namespace PaymentDialog

/-- C1 (counterexample): with the team name "Alpha", no stored team identifier
and a checkout script that fails to load, the attempt ends with the
gateway-unavailable message, not with the "teamId and amount are required" message. -/
theorem missing_team_script_failure_message :
    Samples.dialog.teamName ≠ "" ∧
    getItem Samples.pageNoTeam.storage "ideatex_teamID" = none ∧
    (handlePayWithRazorpay Samples.props Samples.envScriptFails Samples.dialog
        Samples.pageNoTeam).state.error
      = "Failed to load payment gateway. Try again later." ∧
    (handlePayWithRazorpay Samples.props Samples.envScriptFails Samples.dialog
        Samples.pageNoTeam).state.error
      ≠ "teamId and amount are required — please create or select a team before paying." := by
  decide

/-- C1 (amended): a pay attempt with a non-empty team name and no stored team
identifier (absent or empty) sends no create-order and no verify-payment
request, never opens the checkout, never calls `onSubmit`, and ends with a
non-empty error: the "teamId and amount are required" message when the
checkout script is present or loads, the gateway-unavailable message when it
fails to load. -/
theorem missing_team_identifier_contacts_no_backend
    (props : Props) (env : PayEnv) (completion : Option (WidgetResponse × HandlerEnv))
    (st : DialogState) (page : Page)
    (hname : st.teamName ≠ "")
    (hteam : getItem page.storage "ideatex_teamID" = none ∨
      getItem page.storage "ideatex_teamID" = some "") :
    sentCreateOrder (payAttempt props env completion st page).2 = false ∧
    sentVerify (payAttempt props env completion st page).2 = false ∧
    openedCheckout (payAttempt props env completion st page).2 = false ∧
    submitCalls (payAttempt props env completion st page).2 = [] ∧
    (handlePayWithRazorpay props env st page).pending = none ∧
    (payAttempt props env completion st page).1.isProcessing = false ∧
    (payAttempt props env completion st page).1.error ≠ "" ∧
    (payAttempt props env completion st page).1.error =
      (if page.scriptElement || env.scriptLoads then
        "teamId and amount are required — please create or select a team before paying."
      else "Failed to load payment gateway. Try again later.") := by
  have hn : truthyStr st.teamName = true := (truthyStr_iff _).2 hname
  have ht : truthy (getItem page.storage "ideatex_teamID") = false :=
    (truthy_eq_false_iff _).2 hteam
  by_cases hs : page.scriptElement = true <;> by_cases hl : env.scriptLoads = true <;>
    simp [payAttempt, handlePayWithRazorpay, hn, payTry, loadRazorpayScript, createOrder, ht,
      hs, hl, payCatch, sentCreateOrder, sentVerify, openedCheckout, submitCalls]

/-- C1 (witness): the amended statement at the sample dialog on a page without
a team identifier, in a world where the script loads. -/
theorem missing_team_identifier_contacts_no_backend_witness :
    Samples.dialog.teamName ≠ "" ∧
    (getItem Samples.pageNoTeam.storage "ideatex_teamID" = none ∨
      getItem Samples.pageNoTeam.storage "ideatex_teamID" = some "") ∧
    sentCreateOrder (payAttempt Samples.props Samples.envOrderCreated none Samples.dialog
      Samples.pageNoTeam).2 = false ∧
    (payAttempt Samples.props Samples.envOrderCreated none Samples.dialog
      Samples.pageNoTeam).1.error =
      "teamId and amount are required — please create or select a team before paying." := by
  have h := missing_team_identifier_contacts_no_backend Samples.props Samples.envOrderCreated
    none Samples.dialog Samples.pageNoTeam (by decide) (Or.inl (by decide))
  exact ⟨by decide, Or.inl (by decide), h.1, by decide⟩

/-- An attempt whose click registers no completion callback ends with the click. -/
theorem payAttempt_of_no_pending (props : Props) (env : PayEnv)
    (completion : Option (WidgetResponse × HandlerEnv)) (st : DialogState) (page : Page)
    (h : (handlePayWithRazorpay props env st page).pending = none) :
    payAttempt props env completion st page =
      ((handlePayWithRazorpay props env st page).state,
       (handlePayWithRazorpay props env st page).events) := by
  simp [payAttempt, h]

/-- The click handler alone never calls `onSubmit`. -/
theorem click_never_submits (props : Props) (env : PayEnv) (st : DialogState) (page : Page) :
    submitCalls (handlePayWithRazorpay props env st page).events = [] := by
  by_cases hn : truthyStr st.teamName = true
  swap
  · simp [handlePayWithRazorpay, hn, submitCalls]
  rcases hr : env.createOrderResult with err | ⟨succ, data, msg⟩ <;>
    cases hs : page.scriptElement <;> cases hl : env.scriptLoads <;>
    cases ht : truthy (getItem page.storage "ideatex_teamID") <;>
    cases hz : page.razorpay <;> cases hc : env.checkoutError <;>
    (try (cases succ <;> cases data)) <;>
    simp [handlePayWithRazorpay, payTry, loadRazorpayScript, createOrder, openCheckout,
      payCatch, submitCalls, hn, hr, hs, hl, ht, hz, hc]

/-- The callback registered by the click handler carries the team name of the dialog. -/
theorem click_closure_teamName (props : Props) (env : PayEnv) (st : DialogState) (page : Page) :
    ∀ c0, (handlePayWithRazorpay props env st page).pending = some c0 →
      c0.teamName = st.teamName := by
  intro c0
  by_cases hn : truthyStr st.teamName = true
  swap
  · simp [handlePayWithRazorpay, hn]
  rcases hr : env.createOrderResult with err | ⟨succ, data, msg⟩ <;>
    cases hs : page.scriptElement <;> cases hl : env.scriptLoads <;>
    cases ht : truthy (getItem page.storage "ideatex_teamID") <;>
    cases hz : page.razorpay <;> cases hc : env.checkoutError <;>
    (try (cases succ <;> cases data)) <;>
    simp [handlePayWithRazorpay, payTry, loadRazorpayScript, createOrder, openCheckout,
      payCatch, hn, hr, hs, hl, ht, hz, hc] <;>
    (intro h; subst h; rfl)

/-- C2: one run of the completion callback calls `onSubmit` exactly when the
verify-payment response has `success` true, and then once, with
`paymentVerified` true, the payment id of the widget response, the team name
of the dialog and the response body; the click handler itself never calls
`onSubmit`, and the callback it registers carries the team name of the dialog. -/
theorem onSubmit_iff_verified
    (props : Props) (env : PayEnv) (st : DialogState) (page : Page)
    (c : HandlerClosure) (henv : HandlerEnv) (response : WidgetResponse)
    (st2 : DialogState) (page2 : Page) :
    (submitCalls (handler c henv response st2 page2).2 ≠ [] ↔
      ∃ v, henv.verifyResult = .ok v ∧ v.success = true) ∧
    (∀ v, henv.verifyResult = .ok v → v.success = true →
      submitCalls (handler c henv response st2 page2).2 =
        [{ transactionId := response.razorpay_payment_id
           teamName := c.teamName
           paymentVerified := true
           backendResponse := some v }]) ∧
    submitCalls (handlePayWithRazorpay props env st page).events = [] ∧
    (∀ c0, (handlePayWithRazorpay props env st page).pending = some c0 →
      c0.teamName = st.teamName) := by
  refine ⟨?_, ?_, ?_, ?_⟩
  · cases hv : henv.verifyResult with
    | error err => simp [handler, verifyPayment, hv, submitCalls]
    | ok v =>
      by_cases hsucc : v.success = true
      · cases hcb : henv.onSubmitError <;>
          simp [handler, verifyPayment, hv, hsucc, hcb, submitCalls]
      · simp [handler, verifyPayment, hv, hsucc, submitCalls]
  · intro v hv hsucc
    cases hcb : henv.onSubmitError <;>
      simp [handler, verifyPayment, hv, hsucc, hcb, submitCalls]
  · exact click_never_submits props env st page
  · exact click_closure_teamName props env st page

/-- C2 (witness): at the sample order, a verified payment makes the callback
call `onSubmit` once with the payment id "pay_1" and the team name "Alpha",
and the click that opened the checkout called nothing. -/
theorem onSubmit_iff_verified_witness :
    Samples.henvVerified.verifyResult = .ok Samples.verifyOk ∧
    Samples.verifyOk.success = true ∧
    submitCalls (handler Samples.closure Samples.henvVerified Samples.widgetResponse
      Samples.dialog Samples.pageTeam).2 =
        [{ transactionId := "pay_1", teamName := "Alpha", paymentVerified := true,
           backendResponse := some Samples.verifyOk }] ∧
    submitCalls (handlePayWithRazorpay Samples.props Samples.envOrderCreated Samples.dialog
      Samples.pageTeam).events = [] :=
  have h := onSubmit_iff_verified Samples.props Samples.envOrderCreated Samples.dialog
    Samples.pageTeam Samples.closure Samples.henvVerified Samples.widgetResponse
    Samples.dialog Samples.pageTeam
  ⟨rfl, rfl, h.2.1 Samples.verifyOk rfl rfl, h.2.2.1⟩

/-- C3: when the create-order request is answered with `success` false or
without `data`, and with a non-empty `message`, the attempt shows exactly that
message, does not open the checkout, registers no completion callback, sends
no verify-payment request and re-enables the pay button. -/
theorem create_order_rejection_shows_server_message
    (props : Props) (env : PayEnv) (completion : Option (WidgetResponse × HandlerEnv))
    (st : DialogState) (page : Page) (resp : OrderResp) (msg : String)
    (hname : st.teamName ≠ "")
    (hscript : page.scriptElement = true ∨ env.scriptLoads = true)
    (hteam : truthy (getItem page.storage "ideatex_teamID") = true)
    (hresp : env.createOrderResult = .ok resp)
    (hrej : resp.success = false ∨ resp.data = none)
    (hmsg : resp.message = some msg) (hne : msg ≠ "") :
    (payAttempt props env completion st page).1.error = msg ∧
    (payAttempt props env completion st page).1.isProcessing = false ∧
    openedCheckout (payAttempt props env completion st page).2 = false ∧
    sentVerify (payAttempt props env completion st page).2 = false ∧
    submitCalls (payAttempt props env completion st page).2 = [] ∧
    (handlePayWithRazorpay props env st page).pending = none := by
  have hn : truthyStr st.teamName = true := (truthyStr_iff _).2 hname
  have hm : orElse (some msg) "Failed to create payment order" = msg := orElse_of_ne _ _ hne
  obtain ⟨succ, data, message⟩ := resp
  simp only at hrej hmsg
  subst hmsg
  have key : handlePayWithRazorpay props env st page =
      { state := { st with isProcessing := false, error := msg }
        page := (loadRazorpayScript env page).2.1
        events := (loadRazorpayScript env page).2.2 ++
          [Event.createOrderRequest (strOfItem (getItem page.storage "ideatex_teamID"))
            (props.amount * 100) (authorization page.storage)]
        pending := none } := by
    rcases hscript with hs | hl
    · rcases hrej with h | h
      · subst h
        cases data <;>
          simp [handlePayWithRazorpay, payTry, loadRazorpayScript, createOrder, hn, hs,
            hteam, hresp, hm]
      · subst h
        cases succ <;>
          simp [handlePayWithRazorpay, payTry, loadRazorpayScript, createOrder, hn, hs,
            hteam, hresp, hm]
    · rcases hrej with h | h
      · subst h
        cases data <;> cases hs : page.scriptElement <;>
          simp [handlePayWithRazorpay, payTry, loadRazorpayScript, createOrder, hn, hs, hl,
            hteam, hresp, hm]
      · subst h
        cases succ <;> cases hs : page.scriptElement <;>
          simp [handlePayWithRazorpay, payTry, loadRazorpayScript, createOrder, hn, hs, hl,
            hteam, hresp, hm]
  have hev : ∀ evs : List Event, evs = (loadRazorpayScript env page).2.2 →
      openedCheckout (evs ++ [Event.createOrderRequest
        (strOfItem (getItem page.storage "ideatex_teamID"))
        (props.amount * 100) (authorization page.storage)]) = false ∧
      sentVerify (evs ++ [Event.createOrderRequest
        (strOfItem (getItem page.storage "ideatex_teamID"))
        (props.amount * 100) (authorization page.storage)]) = false ∧
      submitCalls (evs ++ [Event.createOrderRequest
        (strOfItem (getItem page.storage "ideatex_teamID"))
        (props.amount * 100) (authorization page.storage)]) = [] := by
    intro evs he
    subst he
    cases hs : page.scriptElement <;>
      simp [loadRazorpayScript, hs, openedCheckout, sentVerify, submitCalls]
  obtain ⟨h1, h2, h3⟩ := hev _ rfl
  have hp : (handlePayWithRazorpay props env st page).pending = none := by rw [key]
  rw [payAttempt_of_no_pending props env completion st page hp, key]
  exact ⟨rfl, rfl, h1, h2, h3, rfl⟩

/-- C3 (witness): the sample rejection "Team already paid" is displayed verbatim. -/
theorem create_order_rejection_shows_server_message_witness :
    (payAttempt Samples.props Samples.envOrderRejected none Samples.dialog
      Samples.pageTeam).1.error = "Team already paid" ∧
    openedCheckout (payAttempt Samples.props Samples.envOrderRejected none Samples.dialog
      Samples.pageTeam).2 = false :=
  have h := create_order_rejection_shows_server_message Samples.props Samples.envOrderRejected
    none Samples.dialog Samples.pageTeam
    { success := false, data := none, message := some "Team already paid" }
    "Team already paid" (by decide) (Or.inr rfl) (by decide) rfl (Or.inl rfl) rfl (by decide)
  ⟨h.1, h.2.2.1⟩

/-- C4: when the verify-payment request throws an error without a server
response, the completion callback shows exactly "Payment verification failed",
re-enables the pay button, and calls neither `onSubmit` nor `onClose`. -/
theorem verify_network_error_message
    (c : HandlerClosure) (henv : HandlerEnv) (response : WidgetResponse)
    (st : DialogState) (page : Page) (err : JsError)
    (hthrow : henv.verifyResult = .error err) (hnet : err.response = none) :
    (handler c henv response st page).1.error = "Payment verification failed" ∧
    (handler c henv response st page).1.isProcessing = false ∧
    (handler c henv response st page).1.teamName = st.teamName ∧
    submitCalls (handler c henv response st page).2 = [] ∧
    calledOnClose (handler c henv response st page).2 = false := by
  simp [handler, verifyPayment, hthrow, JsError.responseMessage, hnet, orElse, submitCalls,
    calledOnClose]

/-- C4 (witness): the sample network error during verification. -/
theorem verify_network_error_message_witness :
    (handler Samples.closure Samples.henvNetworkError Samples.widgetResponse
      { Samples.dialog with isProcessing := true } Samples.pageTeam).1.error
      = "Payment verification failed" ∧
    (handler Samples.closure Samples.henvNetworkError Samples.widgetResponse
      { Samples.dialog with isProcessing := true } Samples.pageTeam).1.isProcessing = false :=
  have h := verify_network_error_message Samples.closure Samples.henvNetworkError
    Samples.widgetResponse { Samples.dialog with isProcessing := true } Samples.pageTeam
    { message := "Network Error", response := none } rfl rfl
  ⟨h.1, h.2.1⟩

end PaymentDialog

/-! ## Team dashboard -/

namespace TeamDashboard

/-- The entry at each position of the enriched list is the enrichment of the
member at that position with the outcome of its own profile request. -/
theorem membersWithDetails_getElem? (env : FetchEnv) (apiMembers : List ApiMember) (i : Nat) :
    (membersWithDetails env apiMembers)[i]? =
      apiMembers[i]?.map fun m => enrichMember m (env.userResult i) := by
  simp only [membersWithDetails, List.getElem?_map, List.getElem?_enum]
  cases apiMembers[i]? <;> rfl

/-- A membership fetch that is answered with `success` true and a `data`
object runs the success branch. -/
theorem fetch_success (env : FetchEnv) (storage : Storage) (resp : MembersResp)
    (d : MembersData)
    (hteam : truthy (getItem storage "ideatex_teamID") = true)
    (hres : env.membersResult = .ok resp) (hsucc : resp.success = true)
    (hdata : resp.data = some d) :
    (fetchTeamMembers env storage).1 =
      [Setter.setLoading true, Setter.setTeamData (transformedTeamData env (d.members.getD [])),
       Setter.setHasTeam true, Setter.setLoading false, Setter.setInitializing false] := by
  simp [fetchTeamMembers, hteam, hres, hsucc, hdata]

/-- The setter calls of a run take one of two shapes. -/
theorem fetch_setters_cases (env : FetchEnv) (storage : Storage) :
    (fetchTeamMembers env storage).1 =
      [Setter.setLoading true, Setter.setHasTeam false, Setter.setLoading false,
       Setter.setInitializing false] ∨
    ∃ t, (fetchTeamMembers env storage).1 =
      [Setter.setLoading true, Setter.setTeamData t, Setter.setHasTeam true,
       Setter.setLoading false, Setter.setInitializing false] := by
  cases ht : truthy (getItem storage "ideatex_teamID")
  · left
    simp [fetchTeamMembers, ht]
  · rcases hr : env.membersResult with err | ⟨succ, data⟩
    · left
      simp [fetchTeamMembers, ht, hr]
    · cases succ
      · left
        simp [fetchTeamMembers, ht, hr]
      · cases data with
        | none =>
          left
          simp [fetchTeamMembers, ht, hr]
        | some d =>
          right
          exact ⟨_, fetch_success env storage _ d ht hr rfl rfl⟩

/-- C5 (counterexample): the first profile request of the sample world
succeeds and returns a user with the empty roll number and without an email
address; the entry built from it carries "N/A" for both, which is neither the
fetched roll number nor a fetched email address. -/
theorem enrichment_absent_field_placeholder :
    fetchedUser (Samples.fetchEnv.userResult 0) = some Samples.profile ∧
    Samples.profile.rollNo = some "" ∧
    Samples.profile.email = none ∧
    ((applySetters (initialState Samples.placeholderTeam)
        (fetchTeamMembers Samples.fetchEnv Samples.storageTeam).1).teamData.members.map
      fun e => (e.name, e.rollNo, e.email)) =
      [("Asha", "N/A", "N/A"), ("Unknown Member", "N/A", "N/A")] ∧
    ((applySetters (initialState Samples.placeholderTeam)
        (fetchTeamMembers Samples.fetchEnv Samples.storageTeam).1).teamData.members.map
      fun e => some e.rollNo) ≠ [Samples.profile.rollNo, none] := by
  decide

/-- C5 (amended): after a successful membership fetch that returns N members,
the team holds N entries in the same order; entry i keeps the id and role of
member i; an entry whose profile request failed or returned no user object
carries "Unknown Member" and "N/A" everywhere else; an entry whose request
returned a user carries each fetched field that is present and non-empty, and
"Unknown" (name) or "N/A" (other fields) for a field that is absent or empty;
entry i depends on no profile outcome but its own. -/
theorem enrichment_isolates_failures
    (env : FetchEnv) (storage : Storage) (st : State) (resp : MembersResp) (d : MembersData)
    (apiMembers : List ApiMember)
    (hteam : truthy (getItem storage "ideatex_teamID") = true)
    (hres : env.membersResult = .ok resp) (hsucc : resp.success = true)
    (hdata : resp.data = some d) (hmem : d.members = some apiMembers) :
    (applySetters st (fetchTeamMembers env storage).1).teamData.members.length
      = apiMembers.length ∧
    (∀ i m, apiMembers[i]? = some m →
      ∃ e, (applySetters st (fetchTeamMembers env storage).1).teamData.members[i]? = some e ∧
        e.id = m._id ∧ e.role = m.role ∧
        (fetchedUser (env.userResult i) = none →
          e.name = "Unknown Member" ∧ e.year = "N/A" ∧ e.contact = "N/A" ∧
          e.libraryId = "N/A" ∧ e.gender = "N/A" ∧ e.email = "N/A" ∧ e.rollNo = "N/A" ∧
          e.college = "N/A") ∧
        (∀ u, fetchedUser (env.userResult i) = some u →
          e.name = orElse u.name "Unknown" ∧ e.email = orElse u.email "N/A" ∧
          e.gender = orElse u.gender "N/A" ∧ e.rollNo = orElse u.rollNo "N/A" ∧
          e.college = orElse u.college "N/A" ∧ e.libraryId = orElse u.libId "N/A")) ∧
    (∀ (env2 : FetchEnv) (i : Nat), env2.membersResult = env.membersResult →
      env2.userResult i = env.userResult i →
      (applySetters st (fetchTeamMembers env2 storage).1).teamData.members[i]? =
        (applySetters st (fetchTeamMembers env storage).1).teamData.members[i]?) := by
  have hrun : ∀ env0 : FetchEnv, env0.membersResult = env.membersResult →
      (applySetters st (fetchTeamMembers env0 storage).1).teamData.members =
        membersWithDetails env0 apiMembers := by
    intro env0 h0
    rw [fetch_success env0 storage resp d hteam (h0.trans hres) hsucc hdata]
    simp [applySetters, Setter.apply, transformedTeamData, hmem]
  refine ⟨?_, ?_, ?_⟩
  · rw [hrun env rfl]
    simp [membersWithDetails]
  · intro i m hm
    refine ⟨enrichMember m (env.userResult i), ?_, ?_⟩
    · rw [hrun env rfl, membersWithDetails_getElem?, hm]
      rfl
    · cases hu : fetchedUser (env.userResult i) with
      | none => simp [enrichMember, hu]
      | some u => simp [enrichMember, hu]
  · intro env2 i hm hu
    rw [hrun env2 hm, hrun env rfl, membersWithDetails_getElem?, membersWithDetails_getElem?, hu]

/-- C5 (witness): the amended statement at the sample world, whose second
profile request fails while the first succeeds. -/
theorem enrichment_isolates_failures_witness :
    truthy (getItem Samples.storageTeam "ideatex_teamID") = true ∧
    (applySetters (initialState Samples.placeholderTeam)
      (fetchTeamMembers Samples.fetchEnv Samples.storageTeam).1).teamData.members.length = 2 ∧
    ∃ e, (applySetters (initialState Samples.placeholderTeam)
        (fetchTeamMembers Samples.fetchEnv Samples.storageTeam).1).teamData.members[1]?
          = some e ∧
      e.id = "m2" ∧ e.role = "MEMBER" ∧ e.name = "Unknown Member" :=
  have h := enrichment_isolates_failures Samples.fetchEnv Samples.storageTeam
    (initialState Samples.placeholderTeam) _ _ [Samples.leaderEntry, Samples.memberEntry]
    (by decide) rfl rfl rfl rfl
  have h1 := h.2.1 1 Samples.memberEntry rfl
  ⟨by decide, h.1, h1.elim fun e he => ⟨e, he.1, he.2.1, he.2.2.1, (he.2.2.2.1 rfl).1⟩⟩

/-- Every successful membership fetch, whatever flags the response carries,
leaves `isPendingPayment` undefined on the team and so renders the full dashboard. -/
theorem fetch_success_renders_dashboard (env : FetchEnv) (storage : Storage) (st : State)
    (resp : MembersResp) (d : MembersData)
    (hteam : truthy (getItem storage "ideatex_teamID") = true)
    (hres : env.membersResult = .ok resp) (hsucc : resp.success = true)
    (hdata : resp.data = some d) :
    (applySetters st (fetchTeamMembers env storage).1).teamData.isPendingPayment = none ∧
    view (applySetters st (fetchTeamMembers env storage).1) = View.dashboard := by
  rw [fetch_success env storage resp d hteam hres hsucc hdata]
  simp [applySetters, Setter.apply, transformedTeamData, view, paymentPending]

/-- C6 (the code at the failing input): the membership fetch resolves for a
team whose response carries `isPendingPayment` true at every level and the code
"ABCDEF"; the team kept by the dashboard has no `isPendingPayment`, and the
view is the full dashboard, not the payment-pending prompt. -/
theorem pending_flag_dropped_by_fetch :
    Samples.fetchEnv.membersResult =
      .ok { success := true
            data := some { members := some [Samples.leaderEntry, Samples.memberEntry]
                           isPendingPayment := some true } } ∧
    Samples.leaderEntry.isPendingPayment = some true ∧
    (applySetters (initialState Samples.placeholderTeam)
      (fetchTeamMembers Samples.fetchEnv Samples.storageTeam).1).teamData.isPendingPayment
      = none ∧
    (applySetters (initialState Samples.placeholderTeam)
      (fetchTeamMembers Samples.fetchEnv Samples.storageTeam).1).teamData.code
      = some "ABCDEF" ∧
    view (applySetters (initialState Samples.placeholderTeam)
      (fetchTeamMembers Samples.fetchEnv Samples.storageTeam).1) = View.dashboard ∧
    view (applySetters (initialState Samples.placeholderTeam)
      (fetchTeamMembers Samples.fetchEnv Samples.storageTeam).1) ≠ View.paymentPending := by
  refine ⟨rfl, ?_⟩
  decide

/-- C7: the view depends on `initializing`, `hasTeam` and
`teamData.isPendingPayment` only; it is the loading view in the initial state
and after every proper prefix of the setter calls of the first
`fetchTeamMembers` run; and after a run that finds no stored team identifier,
or whose request throws or is answered with `success` false, it is the no-team
view from whatever state the run started. -/
theorem view_derivation
    (env : FetchEnv) (storage : Storage) (t : TeamData) (st : State) :
    (∀ s1 s2 : State, s1.initializing = s2.initializing → s1.hasTeam = s2.hasTeam →
      s1.teamData.isPendingPayment = s2.teamData.isPendingPayment → view s1 = view s2) ∧
    view (initialState t) = View.loading ∧
    (∀ k, k < (fetchTeamMembers env storage).1.length →
      view (applySetters (initialState t) ((fetchTeamMembers env storage).1.take k))
        = View.loading) ∧
    view (applySetters (initialState t) (fetchTeamMembers env storage).1) ≠ View.loading ∧
    ((truthy (getItem storage "ideatex_teamID") = false ∨
      (∃ err, env.membersResult = .error err) ∨
      (∃ resp, env.membersResult = .ok resp ∧ resp.success = false)) →
      view (applySetters st (fetchTeamMembers env storage).1) = View.noTeam) := by
  refine ⟨?_, ?_, ?_, ?_, ?_⟩
  · intro s1 s2 h1 h2 h3
    simp [view, paymentPending, h1, h2, h3]
  · simp [view, initialState]
  · intro k hk
    rcases fetch_setters_cases env storage with h | ⟨t2, h⟩
    · rw [h] at hk ⊢
      simp only [List.length_cons, List.length_nil] at hk
      interval_cases k <;> simp [applySetters, Setter.apply, view, initialState]
    · rw [h] at hk ⊢
      simp only [List.length_cons, List.length_nil] at hk
      interval_cases k <;> simp [applySetters, Setter.apply, view, initialState]
  · rcases fetch_setters_cases env storage with h | ⟨t2, h⟩
    · rw [h]
      simp [applySetters, Setter.apply, view, initialState]
    · rw [h]
      simp [applySetters, Setter.apply, view, initialState, paymentPending]
      split <;> simp
  · intro h
    have hrun : (fetchTeamMembers env storage).1 =
        [Setter.setLoading true, Setter.setHasTeam false, Setter.setLoading false,
         Setter.setInitializing false] := by
      cases ht : truthy (getItem storage "ideatex_teamID")
      · simp [fetchTeamMembers, ht]
      · rcases h with h | ⟨err, h⟩ | ⟨resp, h, hs⟩
        · rw [ht] at h
          cases h
        · simp [fetchTeamMembers, ht, h]
        · simp [fetchTeamMembers, ht, h, hs]
    rw [hrun]
    simp [applySetters, Setter.apply, view]

/-- C7 (witness): Scenario A, a first run on a storage without a team identifier. -/
theorem view_derivation_witness :
    truthy (getItem Samples.storageNoTeam "ideatex_teamID") = false ∧
    view (applySetters (initialState Samples.placeholderTeam)
      ((fetchTeamMembers Samples.fetchEnv Samples.storageNoTeam).1.take 3)) = View.loading ∧
    view (applySetters (initialState Samples.placeholderTeam)
      (fetchTeamMembers Samples.fetchEnv Samples.storageNoTeam).1) = View.noTeam :=
  have h := view_derivation Samples.fetchEnv Samples.storageNoTeam Samples.placeholderTeam
    (initialState Samples.placeholderTeam)
  ⟨by decide, h.2.2.1 3 (by decide), h.2.2.2.2 (Or.inl (by decide))⟩

/-- Profile requests schedule no reload. -/
theorem scheduledReloads_userRequests (ms : List ApiMember) (auth : String) :
    scheduledReloads (ms.map fun m => Event.userRequest m.userId auth) = [] := by
  induction ms with
  | nil => rfl
  | cons m rest ih =>
    simp only [scheduledReloads, List.map_cons, List.filterMap_cons] at ih ⊢
    exact ih

/-- Every run of `fetchTeamMembers` is recorded as a call and schedules no reload. -/
theorem fetch_events (env : FetchEnv) (storage : Storage) :
    refetched (fetchTeamMembers env storage).2 = true ∧
    scheduledReloads (fetchTeamMembers env storage).2 = [] := by
  cases ht : truthy (getItem storage "ideatex_teamID")
  · simp [fetchTeamMembers, ht, refetched, scheduledReloads]
  · rcases hr : env.membersResult with err | ⟨succ, data⟩
    · simp [fetchTeamMembers, ht, hr, refetched, scheduledReloads]
    · cases succ
      · simp [fetchTeamMembers, ht, hr, refetched, scheduledReloads]
      · cases data with
        | none => simp [fetchTeamMembers, ht, hr, refetched, scheduledReloads]
        | some d =>
          have h := scheduledReloads_userRequests (d.members.getD []) (authorization storage)
          simp only [scheduledReloads] at h
          simp [fetchTeamMembers, ht, hr, refetched, scheduledReloads, h]

/-- A run of `fetchTeamMembers` leaves the modal flags and the error untouched. -/
theorem applySetters_fetch_frame (env : FetchEnv) (storage : Storage) (st : State) :
    (applySetters st (fetchTeamMembers env storage).1).showPaymentDialog = st.showPaymentDialog ∧
    (applySetters st (fetchTeamMembers env storage).1).showJoinPopup = st.showJoinPopup ∧
    (applySetters st (fetchTeamMembers env storage).1).showCreateTeamModal
      = st.showCreateTeamModal ∧
    (applySetters st (fetchTeamMembers env storage).1).error = st.error := by
  rcases fetch_setters_cases env storage with h | ⟨t, h⟩ <;>
    simp [h, applySetters, Setter.apply]

/-- C8: `handlePaymentSubmit` leaves storage, the dialog flag and the fetch
alone, and sets a non-empty error, for every result in which `paymentVerified`
and `backendResponse.success` are not both true; the same frame holds when the
response carries no team object.  When both are true and the response carries
a team, it closes the dialog, re-fetches membership, stores the first present
of `_id`, `teamId`, `id` as team identifier and the first present of
`leaderId`, `leader` as user identifier, and leaves an entry unchanged when no
fallback key is present; every other storage key is unchanged. -/
theorem payment_confirmation_frame
    (env : FetchEnv) (paymentData : SubmitResult) (st : State) (storage : Storage) :
    (¬(paymentData.paymentVerified = true ∧ backendSuccess paymentData = true) →
      (handlePaymentSubmit env paymentData st storage).storage = storage ∧
      (handlePaymentSubmit env paymentData st storage).state.showPaymentDialog
        = st.showPaymentDialog ∧
      refetched (handlePaymentSubmit env paymentData st storage).events = false ∧
      ∃ e, (handlePaymentSubmit env paymentData st storage).state.error = some e ∧ e ≠ "") ∧
    (backendTeam paymentData = none →
      (handlePaymentSubmit env paymentData st storage).storage = storage ∧
      (handlePaymentSubmit env paymentData st storage).state.showPaymentDialog
        = st.showPaymentDialog ∧
      refetched (handlePaymentSubmit env paymentData st storage).events = false ∧
      ∃ e, (handlePaymentSubmit env paymentData st storage).state.error = some e ∧ e ≠ "") ∧
    (∀ team, paymentData.paymentVerified = true → backendSuccess paymentData = true →
      backendTeam paymentData = some team →
      (handlePaymentSubmit env paymentData st storage).state.showPaymentDialog = false ∧
      refetched (handlePaymentSubmit env paymentData st storage).events = true ∧
      getItem (handlePaymentSubmit env paymentData st storage).storage "ideatex_teamID" =
        (match firstPresent [team._id, team.teamId, team.id] with
         | some v => some v
         | none => getItem storage "ideatex_teamID") ∧
      getItem (handlePaymentSubmit env paymentData st storage).storage "ideatex_userID" =
        (match firstPresent [team.leaderId, team.leader] with
         | some v => some v
         | none => getItem storage "ideatex_userID") ∧
      ∀ key, key ≠ "ideatex_teamID" → key ≠ "ideatex_userID" →
        getItem (handlePaymentSubmit env paymentData st storage).storage key
          = getItem storage key) := by
  refine ⟨?_, ?_, ?_⟩
  · intro h
    have hc : (paymentData.paymentVerified && backendSuccess paymentData) = false := by
      cases h1 : paymentData.paymentVerified <;> cases h2 : backendSuccess paymentData <;>
        simp_all
    simp only [handlePaymentSubmit, hc]
    exact ⟨rfl, rfl, rfl, _, rfl, orElse_ne_empty _ _ (by decide)⟩
  · intro hteam
    cases hc : (paymentData.paymentVerified && backendSuccess paymentData)
    · simp only [handlePaymentSubmit, hc]
      exact ⟨rfl, rfl, rfl, _, rfl, orElse_ne_empty _ _ (by decide)⟩
    · simp only [handlePaymentSubmit, hc, hteam, paymentCatch]
      exact ⟨rfl, rfl, rfl, _, rfl, by decide⟩
  · intro team hv hs hteam
    have hc : (paymentData.paymentVerified && backendSuccess paymentData) = true := by
      simp [hv, hs]
    have hut : ("ideatex_userID" : String) ≠ "ideatex_teamID" := by decide
    have htu : ("ideatex_teamID" : String) ≠ "ideatex_userID" := by decide
    obtain ⟨hf1, hf2⟩ := applySetters_fetch_frame env
      (if truthy (orOpt (orOpt team.leaderId team.leader) team.leaderId) = true then
        setItem (if truthy (orOpt (orOpt team._id team.teamId) team.id) = true then
          setItem storage "ideatex_teamID" (strOfField (orOpt (orOpt team._id team.teamId) team.id))
          else storage) "ideatex_userID"
          (strOfField (orOpt (orOpt team.leaderId team.leader) team.leaderId))
        else (if truthy (orOpt (orOpt team._id team.teamId) team.id) = true then
          setItem storage "ideatex_teamID" (strOfField (orOpt (orOpt team._id team.teamId) team.id))
          else storage)) { st with showPaymentDialog := false }
    obtain ⟨hr1, _⟩ := fetch_events env
      (if truthy (orOpt (orOpt team.leaderId team.leader) team.leaderId) = true then
        setItem (if truthy (orOpt (orOpt team._id team.teamId) team.id) = true then
          setItem storage "ideatex_teamID" (strOfField (orOpt (orOpt team._id team.teamId) team.id))
          else storage) "ideatex_userID"
          (strOfField (orOpt (orOpt team.leaderId team.leader) team.leaderId))
        else (if truthy (orOpt (orOpt team._id team.teamId) team.id) = true then
          setItem storage "ideatex_teamID" (strOfField (orOpt (orOpt team._id team.teamId) team.id))
          else storage))
    simp only [handlePaymentSubmit, hc, hteam, if_true]
    refine ⟨hf1, hr1, ?_, ?_, ?_⟩
    · cases h1 : truthy (orOpt (orOpt team._id team.teamId) team.id) <;>
        cases h2 : truthy (orOpt (orOpt team.leaderId team.leader) team.leaderId) <;>
        simp [(firstPresent_three team._id team.teamId team.id).1,
          (firstPresent_three team._id team.teamId team.id).2, h1,
          getItem_setItem_same, getItem_setItem_other _ _ _ _ hut]
    · cases h1 : truthy (orOpt (orOpt team._id team.teamId) team.id) <;>
        cases h2 : truthy (orOpt (orOpt team.leaderId team.leader) team.leaderId) <;>
        simp [(firstPresent_leader team.leaderId team.leader).1,
          (firstPresent_leader team.leaderId team.leader).2, h2,
          getItem_setItem_same, getItem_setItem_other _ _ _ _ htu]
    · intro key hk1 hk2
      cases h1 : truthy (orOpt (orOpt team._id team.teamId) team.id) <;>
        cases h2 : truthy (orOpt (orOpt team.leaderId team.leader) team.leaderId) <;>
        simp [getItem_setItem_other _ _ _ _ (Ne.symm hk1),
          getItem_setItem_other _ _ _ _ (Ne.symm hk2)]

/-- C8 (witness): the verified sample payment stores "team42" and "user7",
closes the dialog and re-fetches. -/
theorem payment_confirmation_frame_witness :
    Samples.submitResult.paymentVerified = true ∧
    backendSuccess Samples.submitResult = true ∧
    backendTeam Samples.submitResult = some Samples.teamObj ∧
    (handlePaymentSubmit Samples.fetchEnv Samples.submitResult
      { Samples.creating with showPaymentDialog := true }
      Samples.storageNoTeam).state.showPaymentDialog = false ∧
    getItem (handlePaymentSubmit Samples.fetchEnv Samples.submitResult
      { Samples.creating with showPaymentDialog := true }
      Samples.storageNoTeam).storage "ideatex_teamID" = some "team42" ∧
    getItem (handlePaymentSubmit Samples.fetchEnv Samples.submitResult
      { Samples.creating with showPaymentDialog := true }
      Samples.storageNoTeam).storage "ideatex_userID" = some "user7" :=
  have h := (payment_confirmation_frame Samples.fetchEnv Samples.submitResult
    { Samples.creating with showPaymentDialog := true } Samples.storageNoTeam).2.2
    Samples.teamObj rfl rfl rfl
  ⟨rfl, rfl, rfl, h.1, h.2.2.1, h.2.2.2.1⟩

/-- The no-team view is rendered exactly when initialisation is over and no team is held. -/
theorem view_noTeam_iff (st : State) :
    view st = View.noTeam ↔ st.initializing = false ∧ st.hasTeam = false := by
  cases hi : st.initializing <;> cases hh : st.hasTeam <;> cases hp : paymentPending st <;>
    simp [view, hi, hh, hp]

/-- The edits made while the request is pending change the name input and nothing else. -/
theorem whilePending_eq (env : CreateEnv) (st : State) :
    whilePending env st =
      { st with creatingTeamName := lastTyped env.nameEdits st.creatingTeamName } := by
  have h : ∀ (edits : List String) (s : State),
      edits.foldl (fun s value => handleNameChange value s) s =
        { s with creatingTeamName := edits.foldl (fun _ value => value) s.creatingTeamName } := by
    intro edits
    induction edits with
    | nil =>
      intro s
      rfl
    | cons v rest ih =>
      intro s
      simp only [List.foldl_cons]
      rw [ih]
      rfl
  exact h env.nameEdits st

/-- The name input holds the last typed value. -/
theorem lastTyped_append (init : List String) (value current : String) :
    lastTyped (init ++ [value]) current = value := by
  simp [lastTyped, List.foldl_append]

/-- The handler with its guard `!teamName || !teamName.trim()` read as a blank
test and the edits made during the request applied to the name input. -/
theorem handleCreateTeamRequest_eq (env : CreateEnv) (teamName : String) (st : State)
    (storage : Storage) :
    handleCreateTeamRequest env teamName st storage =
      if isBlank teamName then
        { state := { st with error := some "Team name is required" }, storage := storage,
          events := [] }
      else
        match env.addTeamResult with
        | .error err =>
          { state := { st with error := some (orElse err.responseMessage "Failed to create team."),
                               loading := false,
                               creatingTeamName := lastTyped env.nameEdits st.creatingTeamName }
            storage := storage
            events := [Event.addTeamRequest teamName (authorization storage),
                       Event.consoleError] }
        | .ok none =>
          { state := { st with error := some "Failed to create team", loading := false,
                               creatingTeamName := lastTyped env.nameEdits st.creatingTeamName }
            storage := storage,
            events := [Event.addTeamRequest teamName (authorization storage)] }
        | .ok (some resp) =>
          if resp.success then
            match resp.data with
            | none =>
              { state := { st with error := some "Failed to create team.", loading := false,
                                   creatingTeamName :=
                                     lastTyped env.nameEdits st.creatingTeamName }
                storage := storage
                events := [Event.addTeamRequest teamName (authorization storage),
                           Event.consoleError] }
            | some d =>
              match d.team with
              | none =>
                { state := { st with error := some "Failed to create team.", loading := false,
                                     creatingTeamName :=
                                       lastTyped env.nameEdits st.creatingTeamName }
                  storage := storage
                  events := [Event.addTeamRequest teamName (authorization storage),
                             Event.consoleError] }
              | some team =>
                { state := { st with error := some "", showCreateTeamModal := false,
                                     showPaymentDialog := true, loading := false,
                                     creatingTeamName :=
                                       lastTyped env.nameEdits st.creatingTeamName }
                  storage :=
                    setItem (setItem storage "ideatex_teamID"
                        (strOfField (orOpt (orOpt team._id team.teamId) team.id)))
                      "ideatex_userID"
                      (if truthy team.leaderId then strOfField team.leaderId
                       else strOfItem (getItem (setItem storage "ideatex_teamID"
                         (strOfField (orOpt (orOpt team._id team.teamId) team.id)))
                         "ideatex_userID"))
                  events := [Event.addTeamRequest teamName (authorization storage)] }
          else
            { state := { st with error := some (orElse resp.message "Failed to create team"),
                                 loading := false,
                                 creatingTeamName :=
                                   lastTyped env.nameEdits st.creatingTeamName },
              storage := storage,
              events := [Event.addTeamRequest teamName (authorization storage)] } := by
  rw [handleCreateTeamRequest, blank_guard, whilePending_eq]
  cases isBlank teamName
  · rcases env.addTeamResult with err | _ | ⟨succ, msg, data⟩
    · rfl
    · rfl
    · cases succ
      · rfl
      · rcases data with _ | ⟨_ | team⟩ <;> rfl
  · rfl

/-- C9 (counterexample): two refutations.  The name "Alpha" is not blank and
the addTeam response has `success` true, but it carries no `data`; reading the
team throws, the payment dialog stays closed, the modal stays open, the error
is "Failed to create team." and nothing is stored.  And when the response
carries the team but the user has replaced the content of the name input by
"Beta" while the request was pending, the dialog opens pre-filled with "Beta",
not with the submitted "Alpha". -/
theorem create_success_without_team_keeps_dialog_closed :
    isBlank "Alpha" = false ∧
    Samples.createEnvNoData.addTeamResult =
      .ok (some { success := true, message := none, data := none }) ∧
    Samples.creating.showPaymentDialog = false ∧
    (handleCreateTeamRequest Samples.createEnvNoData "Alpha" Samples.creating
      Samples.storageNoTeam).state.showPaymentDialog = false ∧
    (handleCreateTeamRequest Samples.createEnvNoData "Alpha" Samples.creating
      Samples.storageNoTeam).state.showCreateTeamModal = true ∧
    (handleCreateTeamRequest Samples.createEnvNoData "Alpha" Samples.creating
      Samples.storageNoTeam).state.error = some "Failed to create team." ∧
    (handleCreateTeamRequest Samples.createEnvNoData "Alpha" Samples.creating
      Samples.storageNoTeam).storage = Samples.storageNoTeam ∧
    Samples.creating.creatingTeamName = "Alpha" ∧
    (clickCreate Samples.createEnvEdited Samples.creating
      Samples.storageNoTeam).state.showPaymentDialog = true ∧
    (paymentDialogProps (clickCreate Samples.createEnvEdited Samples.creating
      Samples.storageNoTeam).state).map PaymentDialog.formTeamName = some "Beta" := by
  refine ⟨by decide, rfl, ?_⟩
  decide

/-- C9 (amended): `handleCreateTeamRequest` opens the payment dialog exactly
when the name is not blank and the addTeam response has `success` true and
carries a team object.  Then the team identifier (first of `_id`, `teamId`,
`id`) and the leader identifier are stored, the creation modal is closed, and
the dialog of the no-team view is open and pre-filled with the current content
of the name input: the submitted name when the input was not edited while the
request was pending, the last typed value otherwise.  For a blank name no
request is sent.  Otherwise the error is: for a thrown error the server
message when present and non-empty, else "Failed to create team."; for a
missing body "Failed to create team"; for `success` false the message of the
response when present and non-empty, else "Failed to create team"; for
`success` true without `data` or without a team always "Failed to create
team.".  In all these cases both modal flags and the storage are unchanged. -/
theorem create_team_outcome
    (env : CreateEnv) (teamName : String) (st : State) (storage : Storage)
    (hclosed : st.showPaymentDialog = false) :
    ((handleCreateTeamRequest env teamName st storage).state.showPaymentDialog = true ↔
      isBlank teamName = false ∧
      ∃ resp d team, env.addTeamResult = .ok (some resp) ∧ resp.success = true ∧
        resp.data = some d ∧ d.team = some team) ∧
    (isBlank teamName = true →
      (handleCreateTeamRequest env teamName st storage).events = [] ∧
      (handleCreateTeamRequest env teamName st storage).storage = storage ∧
      (handleCreateTeamRequest env teamName st storage).state.showCreateTeamModal
        = st.showCreateTeamModal ∧
      (handleCreateTeamRequest env teamName st storage).state.error
        = some "Team name is required") ∧
    (∀ resp d team, isBlank teamName = false → env.addTeamResult = .ok (some resp) →
      resp.success = true → resp.data = some d → d.team = some team →
      (handleCreateTeamRequest env teamName st storage).state.showCreateTeamModal = false ∧
      getItem (handleCreateTeamRequest env teamName st storage).storage "ideatex_teamID" =
        some (strOfField (orOpt (orOpt team._id team.teamId) team.id)) ∧
      (∀ v, firstPresent [team._id, team.teamId, team.id] = some v →
        getItem (handleCreateTeamRequest env teamName st storage).storage "ideatex_teamID"
          = some v) ∧
      (truthy team.leaderId = true →
        getItem (handleCreateTeamRequest env teamName st storage).storage "ideatex_userID"
          = team.leaderId) ∧
      (env.nameEdits = [] →
        (handleCreateTeamRequest env teamName st storage).state.creatingTeamName
          = st.creatingTeamName) ∧
      (∀ init value, env.nameEdits = init ++ [value] →
        (handleCreateTeamRequest env teamName st storage).state.creatingTeamName = value) ∧
      (view st = View.noTeam →
        ∃ p, paymentDialogProps (handleCreateTeamRequest env teamName st storage).state
            = some p ∧
          p.isOpen = true ∧
          PaymentDialog.formTeamName p
            = (handleCreateTeamRequest env teamName st storage).state.creatingTeamName ∧
          (∀ ds, (PaymentDialog.onOpenEffect p ds).teamName
            = (handleCreateTeamRequest env teamName st storage).state.creatingTeamName) ∧
          (teamName = st.creatingTeamName → env.nameEdits = [] →
            PaymentDialog.formTeamName p = teamName ∧
            ∀ ds, (PaymentDialog.onOpenEffect p ds).teamName = teamName))) ∧
    (isBlank teamName = false →
      (¬∃ resp d team, env.addTeamResult = .ok (some resp) ∧ resp.success = true ∧
        resp.data = some d ∧ d.team = some team) →
      (handleCreateTeamRequest env teamName st storage).state.showPaymentDialog = false ∧
      (handleCreateTeamRequest env teamName st storage).state.showCreateTeamModal
        = st.showCreateTeamModal ∧
      (handleCreateTeamRequest env teamName st storage).storage = storage ∧
      (∃ e, (handleCreateTeamRequest env teamName st storage).state.error = some e ∧ e ≠ "") ∧
      (∀ err, env.addTeamResult = .error err →
        (handleCreateTeamRequest env teamName st storage).state.error
          = some (orElse err.responseMessage "Failed to create team.")) ∧
      (∀ err msg, env.addTeamResult = .error err → err.responseMessage = some msg → msg ≠ "" →
        (handleCreateTeamRequest env teamName st storage).state.error = some msg) ∧
      (env.addTeamResult = .ok none →
        (handleCreateTeamRequest env teamName st storage).state.error
          = some "Failed to create team") ∧
      (∀ resp, env.addTeamResult = .ok (some resp) → resp.success = false →
        (handleCreateTeamRequest env teamName st storage).state.error
          = some (orElse resp.message "Failed to create team")) ∧
      (∀ resp msg, env.addTeamResult = .ok (some resp) → resp.success = false →
        resp.message = some msg → msg ≠ "" →
        (handleCreateTeamRequest env teamName st storage).state.error = some msg) ∧
      (∀ resp, env.addTeamResult = .ok (some resp) → resp.success = true →
        (handleCreateTeamRequest env teamName st storage).state.error
          = some "Failed to create team.")) := by
  have hut : ("ideatex_userID" : String) ≠ "ideatex_teamID" := by decide
  refine ⟨?_, ?_, ?_, ?_⟩
  · cases hb : isBlank teamName
    · rcases hr : env.addTeamResult with err | _ | ⟨succ, msg, data⟩
      · simp [handleCreateTeamRequest_eq, hb, hr, hclosed]
      · simp [handleCreateTeamRequest_eq, hb, hr, hclosed]
      · cases succ
        · simp [handleCreateTeamRequest_eq, hb, hr, hclosed]
        · rcases data with _ | ⟨_ | team⟩ <;>
            simp [handleCreateTeamRequest_eq, hb, hr, hclosed]
    · simp [handleCreateTeamRequest_eq, hb, hclosed]
  · intro hb
    simp [handleCreateTeamRequest_eq, hb]
  · intro resp d team hb hr hs hd ht
    have hrun : handleCreateTeamRequest env teamName st storage =
        { state := { st with error := some "", loading := false, showCreateTeamModal := false,
                             showPaymentDialog := true,
                             creatingTeamName := lastTyped env.nameEdits st.creatingTeamName }
          storage := setItem (setItem storage "ideatex_teamID"
              (strOfField (orOpt (orOpt team._id team.teamId) team.id))) "ideatex_userID"
            (if truthy team.leaderId then strOfField team.leaderId
             else strOfItem (getItem (setItem storage "ideatex_teamID"
               (strOfField (orOpt (orOpt team._id team.teamId) team.id))) "ideatex_userID"))
          events := [Event.addTeamRequest teamName (authorization storage)] } := by
      simp [handleCreateTeamRequest_eq, hb, hr, hs, hd, ht]
    have hform : ∀ name : String,
        PaymentDialog.formTeamName
          { isOpen := true
            formData := some { teamName := some name, name := none, email := none,
                               contact := none }
            amount := 1 } = name := by
      intro name
      by_cases he : name = ""
      · simp [PaymentDialog.formTeamName, orElse, truthyStr, he]
      · simp [PaymentDialog.formTeamName, orElse, truthyStr, he]
    rw [hrun]
    refine ⟨rfl, ?_, ?_, ?_, ?_, ?_, ?_⟩
    · simp [getItem_setItem_other _ _ _ _ hut, getItem_setItem_same]
    · intro v hv
      cases h1 : truthy (orOpt (orOpt team._id team.teamId) team.id)
      · rw [(firstPresent_three team._id team.teamId team.id).2 h1] at hv
        cases hv
      · rw [(firstPresent_three team._id team.teamId team.id).1 h1] at hv
        simp [getItem_setItem_other _ _ _ _ hut, getItem_setItem_same, ← hv]
    · intro hl
      simp [hl, getItem_setItem_same, truthy_true_some]
    · intro he
      simp [he, lastTyped]
    · intro init value he
      simp only [he]
      exact lastTyped_append init value st.creatingTeamName
    · intro hv
      obtain ⟨hi, hh⟩ := (view_noTeam_iff st).1 hv
      refine ⟨{ isOpen := true
                formData := some { teamName := some (lastTyped env.nameEdits st.creatingTeamName),
                                   name := none, email := none, contact := none }
                amount := 1 },
        by simp [paymentDialogProps, view, hi, hh], rfl, hform _, ?_, ?_⟩
      · intro ds
        simp only [PaymentDialog.onOpenEffect, if_true]
        exact hform _
      · intro hn he
        have hl : lastTyped env.nameEdits st.creatingTeamName = teamName := by
          simp [he, lastTyped, hn]
        refine ⟨?_, ?_⟩
        · rw [hform, hl]
        · intro ds
          simp only [PaymentDialog.onOpenEffect, if_true]
          rw [hform, hl]
  · intro hb hno
    rcases hr : env.addTeamResult with err | _ | ⟨succ, msg, data⟩
    · simp only [handleCreateTeamRequest_eq, hb, hr]
      refine ⟨hclosed, rfl, rfl, ⟨_, rfl, orElse_ne_empty _ _ (by decide)⟩,
        ?_, ?_, ?_, ?_, ?_, ?_⟩
      · intro err2 he
        cases he
        rfl
      · intro err2 m he hm hne
        cases he
        simp [hm, orElse_of_ne _ _ hne]
      · intro he
        cases he
      · intro resp he
        cases he
      · intro resp m he
        cases he
      · intro resp he
        cases he
    · simp only [handleCreateTeamRequest_eq, hb, hr]
      refine ⟨hclosed, rfl, rfl, ⟨_, rfl, by decide⟩, ?_, ?_, ?_, ?_, ?_, ?_⟩
      · intro err2 he
        cases he
      · intro err2 m he
        cases he
      · intro _
        rfl
      · intro resp he
        cases he
      · intro resp m he
        cases he
      · intro resp he
        cases he
    · cases succ
      · simp only [handleCreateTeamRequest_eq, hb, hr]
        refine ⟨hclosed, rfl, rfl, ⟨_, rfl, orElse_ne_empty _ _ (by decide)⟩,
          ?_, ?_, ?_, ?_, ?_, ?_⟩
        · intro err2 he
          cases he
        · intro err2 m he
          cases he
        · intro he
          cases he
        · intro resp he _
          cases he
          rfl
        · intro resp m he _ hm hne
          cases he
          simp only at hm
          simp [hm, orElse_of_ne _ _ hne]
        · intro resp he hs
          cases he
          cases hs
      · rcases data with _ | ⟨_ | team⟩
        · simp only [handleCreateTeamRequest_eq, hb, hr]
          refine ⟨hclosed, rfl, rfl, ⟨_, rfl, by decide⟩, ?_, ?_, ?_, ?_, ?_, ?_⟩
          · intro err2 he
            cases he
          · intro err2 m he
            cases he
          · intro he
            cases he
          · intro resp he hs
            cases he
            cases hs
          · intro resp m he hs
            cases he
            cases hs
          · intro resp he _
            rfl
        · simp only [handleCreateTeamRequest_eq, hb, hr]
          refine ⟨hclosed, rfl, rfl, ⟨_, rfl, by decide⟩, ?_, ?_, ?_, ?_, ?_, ?_⟩
          · intro err2 he
            cases he
          · intro err2 m he
            cases he
          · intro he
            cases he
          · intro resp he hs
            cases he
            cases hs
          · intro resp m he hs
            cases he
            cases hs
          · intro resp he _
            rfl
        · exact absurd ⟨_, _, team, hr, rfl, rfl, rfl⟩ hno

/-- C9 (witness): Scenario D, creating the team "Alpha" against a backend that
answers with the team, the name input untouched meanwhile: the dialog opens
pre-filled with "Alpha". -/
theorem create_team_outcome_witness :
    Samples.creating.showPaymentDialog = false ∧
    isBlank "Alpha" = false ∧
    view Samples.creating = View.noTeam ∧
    (handleCreateTeamRequest Samples.createEnvOk "Alpha" Samples.creating
      Samples.storageNoTeam).state.showPaymentDialog = true ∧
    getItem (handleCreateTeamRequest Samples.createEnvOk "Alpha" Samples.creating
      Samples.storageNoTeam).storage "ideatex_teamID" = some "team42" ∧
    ∃ p, paymentDialogProps (handleCreateTeamRequest Samples.createEnvOk "Alpha"
        Samples.creating Samples.storageNoTeam).state = some p ∧
      p.isOpen = true ∧ PaymentDialog.formTeamName p = "Alpha" ∧
      ∀ ds, (PaymentDialog.onOpenEffect p ds).teamName = "Alpha" :=
  have h := create_team_outcome Samples.createEnvOk "Alpha" Samples.creating
    Samples.storageNoTeam rfl
  have h3 := h.2.2.1 _ _ Samples.teamObj (by decide) rfl rfl rfl rfl
  have h4 := h3.2.2.2.2.2.2 (by decide)
  ⟨rfl, by decide, by decide,
    h.1.2 ⟨by decide, _, _, Samples.teamObj, rfl, rfl, rfl, rfl⟩,
    h3.2.1,
    h4.elim fun p hp => ⟨p, hp.1, hp.2.1, (hp.2.2.2.2 rfl rfl).1, (hp.2.2.2.2 rfl rfl).2⟩⟩

/-- C10 (counterexample): the code "ABCDEF" is submitted and the joinTeam
response has `success` true, but it carries no `data`; reading the team
throws, nothing is stored, no reload is scheduled, the popup stays open and
membership is not re-fetched. -/
theorem join_success_without_team_does_nothing :
    isBlank Samples.joining.teamCode = false ∧
    Samples.joinEnvNoData.joinResult =
      .ok { success := true, message := none, data := none } ∧
    (handleJoinSubmit Samples.joinEnvNoData Samples.joining Samples.storageNoTeam).storage
      = Samples.storageNoTeam ∧
    scheduledReloads
      (handleJoinSubmit Samples.joinEnvNoData Samples.joining Samples.storageNoTeam).events
      = [] ∧
    (handleJoinSubmit Samples.joinEnvNoData Samples.joining
      Samples.storageNoTeam).state.showJoinPopup = true ∧
    refetched
      (handleJoinSubmit Samples.joinEnvNoData Samples.joining Samples.storageNoTeam).events
      = false ∧
    (handleJoinSubmit Samples.joinEnvNoData Samples.joining Samples.storageNoTeam).state.error
      = some "Failed to join team" := by
  refine ⟨by decide, rfl, ?_⟩
  decide

/-- C10 (amended): for a submitted non-blank code, when the joinTeam response
has `success` true and carries a team object, storage afterwards holds the
team `_id` under the team key and `userId` under the user key (as strings),
every other key is unchanged, exactly one reload is scheduled, with a delay of
2000 ms, right after the request, the popup is closed and membership is
re-fetched.  In every other case (thrown error, `success` false, or `success`
true without a team object) storage is unchanged, no reload is scheduled, the
popup flag is unchanged, nothing is re-fetched, and the error is set: to the
server message or "Failed to join team" for a thrown error, to the message of
the response for `success` false, to "Failed to join team" otherwise. -/
theorem join_outcome
    (env : JoinEnv) (st : State) (storage : Storage)
    (hcode : isBlank st.teamCode = false) :
    (∀ resp d team, env.joinResult = .ok resp → resp.success = true → resp.data = some d →
      d.team = some team →
      getItem (handleJoinSubmit env st storage).storage "ideatex_teamID"
        = some (strOfField team._id) ∧
      getItem (handleJoinSubmit env st storage).storage "ideatex_userID"
        = some (strOfField d.userId) ∧
      (∀ key, key ≠ "ideatex_teamID" → key ≠ "ideatex_userID" →
        getItem (handleJoinSubmit env st storage).storage key = getItem storage key) ∧
      scheduledReloads (handleJoinSubmit env st storage).events = [2000] ∧
      (handleJoinSubmit env st storage).events.take 2 =
        [Event.joinTeamRequest st.teamCode (authorization storage),
         Event.timeoutScheduled 2000 "/ideatex/dashboard"] ∧
      (handleJoinSubmit env st storage).state.showJoinPopup = false ∧
      refetched (handleJoinSubmit env st storage).events = true) ∧
    ((¬∃ resp d team, env.joinResult = .ok resp ∧ resp.success = true ∧ resp.data = some d ∧
        d.team = some team) →
      (handleJoinSubmit env st storage).storage = storage ∧
      scheduledReloads (handleJoinSubmit env st storage).events = [] ∧
      (handleJoinSubmit env st storage).state.showJoinPopup = st.showJoinPopup ∧
      refetched (handleJoinSubmit env st storage).events = false ∧
      (∀ err, env.joinResult = .error err →
        (handleJoinSubmit env st storage).state.error
          = some (orElse err.responseMessage "Failed to join team")) ∧
      (∀ resp, env.joinResult = .ok resp → resp.success = false →
        (handleJoinSubmit env st storage).state.error = resp.message) ∧
      (∀ resp, env.joinResult = .ok resp → resp.success = true →
        (handleJoinSubmit env st storage).state.error = some "Failed to join team")) := by
  have hut : ("ideatex_userID" : String) ≠ "ideatex_teamID" := by decide
  refine ⟨?_, ?_⟩
  · intro resp d team hr hs hd ht
    obtain ⟨hf1, hf2⟩ := fetch_events env.fetch
      (setItem (setItem storage "ideatex_teamID" (strOfField team._id)) "ideatex_userID"
        (strOfField d.userId))
    obtain ⟨_, hp, _, _⟩ := applySetters_fetch_frame env.fetch
      (setItem (setItem storage "ideatex_teamID" (strOfField team._id)) "ideatex_userID"
        (strOfField d.userId)) { st with loading := true, showJoinPopup := false }
    simp only [handleJoinSubmit, hcode, hr, hs, hd, ht]
    refine ⟨?_, ?_, ?_, ?_, ?_, ?_, ?_⟩
    · simp [getItem_setItem_other _ _ _ _ hut, getItem_setItem_same]
    · simp [getItem_setItem_same]
    · intro key hk1 hk2
      simp [getItem_setItem_other _ _ _ _ (Ne.symm hk1),
        getItem_setItem_other _ _ _ _ (Ne.symm hk2)]
    · simp only [scheduledReloads] at hf2
      simp [scheduledReloads, hf2]
    · simp
    · simpa using hp
    · simp only [refetched] at hf1
      simp [refetched, hf1]
  · intro hno
    rcases hr : env.joinResult with err | ⟨succ, msg, data⟩
    · simp only [handleJoinSubmit, hcode, hr, joinCatch]
      refine ⟨rfl, rfl, rfl, rfl, ?_, ?_, ?_⟩
      · intro err2 he
        cases he
        rfl
      · intro resp he
        cases he
      · intro resp he
        cases he
    · cases succ
      · simp only [handleJoinSubmit, hcode, hr]
        refine ⟨rfl, rfl, rfl, rfl, ?_, ?_, ?_⟩
        · intro err2 he
          cases he
        · intro resp he _
          cases he
          rfl
        · intro resp he hs
          cases he
          cases hs
      · rcases data with _ | ⟨_ | team, userId⟩
        · simp only [handleJoinSubmit, hcode, hr, joinCatch]
          refine ⟨rfl, rfl, rfl, rfl, ?_, ?_, ?_⟩
          · intro err2 he
            cases he
          · intro resp he hs
            cases he
            cases hs
          · intro resp he _
            rfl
        · simp only [handleJoinSubmit, hcode, hr, joinCatch]
          refine ⟨rfl, rfl, rfl, rfl, ?_, ?_, ?_⟩
          · intro err2 he
            cases he
          · intro resp he hs
            cases he
            cases hs
          · intro resp he _
            rfl
        · exact absurd ⟨_, _, team, hr, rfl, rfl, rfl⟩ hno

/-- C10 (witness): Scenario C, joining with the code "ABCDEF" against a backend
that accepts it. -/
theorem join_outcome_witness :
    isBlank Samples.joining.teamCode = false ∧
    getItem (handleJoinSubmit Samples.joinEnvOk Samples.joining Samples.storageNoTeam).storage
      "ideatex_teamID" = some "team42" ∧
    getItem (handleJoinSubmit Samples.joinEnvOk Samples.joining Samples.storageNoTeam).storage
      "ideatex_userID" = some "user9" ∧
    scheduledReloads
      (handleJoinSubmit Samples.joinEnvOk Samples.joining Samples.storageNoTeam).events
      = [2000] :=
  have h := (join_outcome Samples.joinEnvOk Samples.joining Samples.storageNoTeam
    (by decide)).1 _ _ Samples.teamObj rfl rfl rfl rfl
  ⟨by decide, h.1, h.2.1, h.2.2.2.1⟩

/-- C11: for every team code whose length is not exactly 6 the join button is
disabled, so the join operation started from the popup runs nothing: no
joinTeam request is sent, storage and state are unchanged.  The handler's own
test is the blank test, which also sends nothing. -/
theorem short_code_sends_no_join_request
    (env : JoinEnv) (st : State) (storage : Storage)
    (hlen : jsLength st.teamCode ≠ 6) :
    joinDisabled st = true ∧
    sentJoinTeam (clickJoin env st storage).events = false ∧
    (clickJoin env st storage).events = [] ∧
    (clickJoin env st storage).storage = storage ∧
    (clickJoin env st storage).state = st ∧
    (isBlank st.teamCode = true →
      sentJoinTeam (handleJoinSubmit env st storage).events = false ∧
      (handleJoinSubmit env st storage).storage = storage) := by
  have hd : joinDisabled st = true := by
    simp [joinDisabled, hlen]
  refine ⟨hd, ?_, ?_, ?_, ?_, ?_⟩
  · simp [clickJoin, hd, sentJoinTeam]
  · simp [clickJoin, hd]
  · simp [clickJoin, hd]
  · simp [clickJoin, hd]
  · intro hb
    simp [handleJoinSubmit, hb, sentJoinTeam]

/-- C11 (witness): the three-character code "ABC" in the join popup. -/
theorem short_code_sends_no_join_request_witness :
    jsLength Samples.joiningShort.teamCode ≠ 6 ∧
    (clickJoin Samples.joinEnvOk Samples.joiningShort Samples.storageNoTeam).events = [] ∧
    (clickJoin Samples.joinEnvOk Samples.joiningShort Samples.storageNoTeam).storage
      = Samples.storageNoTeam :=
  have h := short_code_sends_no_join_request Samples.joinEnvOk Samples.joiningShort
    Samples.storageNoTeam (by decide)
  ⟨by decide, h.2.2.1, h.2.2.2.1⟩

/-- C12: `handleRemoveMember` is a local list filter.  The new member list is
the old one without the members whose id equals `memberId`, in the original
order; every other team field and every other state cell is unchanged; no
request is issued and storage is untouched; removing the same id again, or an
id that no member has, changes nothing further. -/
theorem remove_member_local_filter (memberId : String) (st : State) (storage : Storage) :
    (removeMember memberId st storage).state.teamData.members
      = st.teamData.members.filter (fun m => decide (m.id ≠ memberId)) ∧
    (∀ m, m ∈ (removeMember memberId st storage).state.teamData.members ↔
      m ∈ st.teamData.members ∧ m.id ≠ memberId) ∧
    List.Sublist (removeMember memberId st storage).state.teamData.members
      st.teamData.members ∧
    (removeMember memberId st storage).state.teamData.id = st.teamData.id ∧
    (removeMember memberId st storage).state.teamData.name = st.teamData.name ∧
    (removeMember memberId st storage).state.teamData.code = st.teamData.code ∧
    (removeMember memberId st storage).state.teamData.leader = st.teamData.leader ∧
    (removeMember memberId st storage).state.teamData.createdAt = st.teamData.createdAt ∧
    (removeMember memberId st storage).state
      = { st with teamData := (removeMember memberId st storage).state.teamData } ∧
    (removeMember memberId st storage).events = [] ∧
    (removeMember memberId st storage).storage = storage ∧
    removeMember memberId (removeMember memberId st storage).state
        (removeMember memberId st storage).storage
      = removeMember memberId st storage ∧
    ((∀ m ∈ st.teamData.members, m.id ≠ memberId) →
      removeMember memberId st storage
        = { state := st, storage := storage, events := [] }) := by
  have hf : (fun m : Member => m.id != memberId) = fun m => decide (m.id ≠ memberId) := by
    funext m
    by_cases h : m.id = memberId <;> simp [h]
  refine ⟨?_, ?_, ?_, rfl, rfl, rfl, rfl, rfl, rfl, rfl, rfl, ?_, ?_⟩
  · simp [removeMember, handleRemoveMember, hf]
  · intro m
    simp [removeMember, handleRemoveMember, List.mem_filter]
  · simp only [removeMember, handleRemoveMember]
    exact List.filter_sublist _
  · simp [removeMember, handleRemoveMember, List.filter_filter]
  · intro h
    have hall : st.teamData.members.filter (fun m => m.id != memberId) = st.teamData.members := by
      rw [List.filter_eq_self]
      intro m hm
      simpa using h m hm
    simp [removeMember, handleRemoveMember, hall]

/-- C12 (witness): removing "m2" from the sample team keeps "m1" only, and
removing the unused id "m9" changes nothing. -/
theorem remove_member_local_filter_witness :
    ((removeMember "m2" Samples.withMembers Samples.storageTeam).state.teamData.members.map
      fun m => m.id) = ["m1"] ∧
    (∀ m ∈ Samples.withMembers.teamData.members, m.id ≠ "m9") ∧
    removeMember "m9" Samples.withMembers Samples.storageTeam
      = { state := Samples.withMembers, storage := Samples.storageTeam, events := [] } :=
  have h := remove_member_local_filter "m9" Samples.withMembers Samples.storageTeam
  ⟨by decide, by decide, h.2.2.2.2.2.2.2.2.2.2.2.2 (by decide)⟩

end TeamDashboard

/-! ## FAQ accordion -/

namespace Faq

/-- C13 (counterexample): after a click on item 0 that item is open; a click
on the distinct item 1 then closes item 0, so the click on item 1 does not
leave the state of item 0 unchanged, and the two are not open together. -/
theorem click_closes_other_item :
    (0 : Nat) ≠ 1 ∧
    isOpen (afterClicks [0]) 0 = true ∧
    isOpen (handleItemClick (afterClicks [0]) 1) 0 = false ∧
    isOpen (handleItemClick (afterClicks [0]) 1) 1 = true := by
  decide

/-- C13 (amended): for every state and every two distinct items i and j, a
click on item i flips the state of item i and leaves item j closed: unchanged
when j was closed, closed when j was open; two distinct items are never open
together. -/
theorem click_flips_item_and_closes_others (s : OpenIndex) (i j : Nat) (hij : i ≠ j) :
    isOpen (handleItemClick s i) i = !isOpen s i ∧
    isOpen (handleItemClick s i) j = false ∧
    (isOpen s j = false → isOpen (handleItemClick s i) j = isOpen s j) ∧
    ¬(isOpen (handleItemClick s i) i = true ∧ isOpen (handleItemClick s i) j = true) := by
  have hji : j ≠ i := Ne.symm hij
  cases s with
  | none => simp [handleItemClick, isOpen, hij, hji]
  | some k =>
    by_cases hk : k = i
    · subst hk
      simp [handleItemClick, isOpen]
    · have hk2 : i ≠ k := Ne.symm hk
      simp [handleItemClick, isOpen, hk, hk2, hij, hji]

/-- C13 (witness): with item 0 open, a click on item 1 opens it and leaves item 0 closed. -/
theorem click_flips_item_and_closes_others_witness :
    (1 : Nat) ≠ 0 ∧
    isOpen (handleItemClick (some 0) 1) 1 = true ∧
    isOpen (handleItemClick (some 0) 1) 0 = false :=
  have h := click_flips_item_and_closes_others (some 0) 1 0 (by decide)
  ⟨by decide, by simpa [isOpen] using h.1, h.2.1⟩

/-- C17: the open state is one optional index.  In every state, and so in
every state reached by clicks, at most one item is open; initially none is;
after a click on item i, item i is open exactly when it was closed before, and
every other item is closed whatever its state was. -/
theorem accordion_state_machine :
    (∀ (s : OpenIndex) (i j : Nat), isOpen s i = true → isOpen s j = true → i = j) ∧
    (∀ (clicks : List Nat) (i j : Nat), isOpen (afterClicks clicks) i = true →
      isOpen (afterClicks clicks) j = true → i = j) ∧
    (∀ i, isOpen initialOpenIndex i = false) ∧
    (∀ (s : OpenIndex) (i : Nat),
      (isOpen (handleItemClick s i) i = true ↔ isOpen s i = false)) ∧
    (∀ (s : OpenIndex) (i j : Nat), j ≠ i → isOpen (handleItemClick s i) j = false) := by
  have one : ∀ (s : OpenIndex) (i j : Nat), isOpen s i = true → isOpen s j = true → i = j := by
    intro s i j hi hj
    cases s with
    | none => simp [isOpen] at hi
    | some k =>
      simp only [isOpen, beq_iff_eq, Option.some.injEq] at hi hj
      omega
  refine ⟨one, fun clicks => one _, ?_, ?_, ?_⟩
  · intro i
    simp [isOpen, initialOpenIndex]
  · intro s i
    cases s with
    | none => simp [handleItemClick, isOpen]
    | some k =>
      by_cases hk : k = i
      · subst hk
        simp [handleItemClick, isOpen]
      · simp [handleItemClick, isOpen, hk]
  · intro s i j hji
    have hij : i ≠ j := Ne.symm hji
    cases s with
    | none => simp [handleItemClick, isOpen, hij]
    | some k =>
      by_cases hk : k = i
      · subst hk
        simp [handleItemClick, isOpen]
      · simp [handleItemClick, isOpen, hk, hij]

/-- C17 (witness): after clicks on items 2, 5 and 5 nothing is open; after
clicks on 2 and 5 only item 5 is. -/
theorem accordion_state_machine_witness :
    afterClicks [2, 5, 5] = none ∧
    isOpen (afterClicks [2, 5]) 5 = true ∧
    isOpen (afterClicks [2, 5]) 2 = false :=
  have h := accordion_state_machine
  ⟨by decide, by decide, h.2.2.2.2 (afterClicks [2]) 5 2 (by decide)⟩

end Faq

/-! ## Payment dialog: script loading and the pay button -/

namespace PaymentDialog

/-- The events of a pay attempt without a stored team identifier. -/
theorem missing_team_events (props : Props) (env : PayEnv) (st : DialogState) (page : Page)
    (hname : st.teamName ≠ "")
    (hteam : getItem page.storage "ideatex_teamID" = none ∨
      getItem page.storage "ideatex_teamID" = some "") :
    (handlePayWithRazorpay props env st page).events =
      (if page.scriptElement then [] else [Event.scriptAppended]) ++
      (if page.scriptElement || env.scriptLoads then [Event.consoleError] else []) := by
  have hn : truthyStr st.teamName = true := (truthyStr_iff _).2 hname
  have ht : truthy (getItem page.storage "ideatex_teamID") = false :=
    (truthy_eq_false_iff _).2 hteam
  cases hs : page.scriptElement <;> cases hl : env.scriptLoads <;>
    simp [handlePayWithRazorpay, hn, payTry, loadRazorpayScript, createOrder, ht, hs, hl,
      payCatch]

/-- C14 (counterexample): on a page without a team identifier and without the
script element, the attempt adds the checkout script element, that is, it
requests the external script, before it fails with the missing-team message. -/
theorem missing_team_still_requests_script :
    getItem Samples.pageNoTeam.storage "ideatex_teamID" = none ∧
    Samples.pageNoTeam.scriptElement = false ∧
    appendedScript (handlePayWithRazorpay Samples.props Samples.envOrderCreated Samples.dialog
      Samples.pageNoTeam).events = true ∧
    (handlePayWithRazorpay Samples.props Samples.envOrderCreated Samples.dialog
      Samples.pageNoTeam).events = [Event.scriptAppended, Event.consoleError] ∧
    (handlePayWithRazorpay Samples.props Samples.envOrderCreated Samples.dialog
      Samples.pageNoTeam).state.error
      = "teamId and amount are required — please create or select a team before paying." := by
  decide

/-- C14 (amended): a pay attempt without a stored team identifier issues no
backend request (no create-order, no verify-payment) and opens no checkout,
but the script is loaded before the identifier is checked: with a non-empty
team name the checkout script element is added exactly when the page has none
yet, and only then is the attempt ended; with an empty team name nothing is
requested at all. -/
theorem missing_team_requests_script_only
    (props : Props) (env : PayEnv) (st : DialogState) (page : Page)
    (hteam : getItem page.storage "ideatex_teamID" = none ∨
      getItem page.storage "ideatex_teamID" = some "") :
    sentCreateOrder (handlePayWithRazorpay props env st page).events = false ∧
    sentVerify (handlePayWithRazorpay props env st page).events = false ∧
    openedCheckout (handlePayWithRazorpay props env st page).events = false ∧
    (st.teamName = "" → (handlePayWithRazorpay props env st page).events = []) ∧
    (st.teamName ≠ "" →
      appendedScript (handlePayWithRazorpay props env st page).events
        = !page.scriptElement ∧
      scriptInsertions (handlePayWithRazorpay props env st page).events
        = (if page.scriptElement then 0 else 1) ∧
      (handlePayWithRazorpay props env st page).page.scriptElement = true) := by
  by_cases hname : st.teamName = ""
  · have hn : truthyStr st.teamName = false := by simp [truthyStr, hname]
    have hrun : handlePayWithRazorpay props env st page =
        { state := { st with error := "Please provide a team name before proceeding." }
          page := page, events := [], pending := none } := by
      simp [handlePayWithRazorpay, hn]
    rw [hrun]
    exact ⟨rfl, rfl, rfl, fun _ => rfl, fun h => absurd hname h⟩
  · have hev := missing_team_events props env st page hname hteam
    have hn : truthyStr st.teamName = true := (truthyStr_iff _).2 hname
    have ht : truthy (getItem page.storage "ideatex_teamID") = false :=
      (truthy_eq_false_iff _).2 hteam
    rw [hev]
    refine ⟨?_, ?_, ?_, fun h => absurd h hname, fun _ => ⟨?_, ?_, ?_⟩⟩
    · cases hs : page.scriptElement <;> cases hl : env.scriptLoads <;> simp [sentCreateOrder]
    · cases hs : page.scriptElement <;> cases hl : env.scriptLoads <;> simp [sentVerify]
    · cases hs : page.scriptElement <;> cases hl : env.scriptLoads <;> simp [openedCheckout]
    · cases hs : page.scriptElement <;> cases hl : env.scriptLoads <;> simp [appendedScript]
    · cases hs : page.scriptElement <;> cases hl : env.scriptLoads <;>
        simp [scriptInsertions]
    · cases hs : page.scriptElement <;> cases hl : env.scriptLoads <;>
        simp [handlePayWithRazorpay, hn, payTry, loadRazorpayScript, createOrder, ht, hs, hl,
          payCatch]

/-- C14 (witness): the sample page without a team identifier and without the
script element: one script element is added, no order is requested. -/
theorem missing_team_requests_script_only_witness :
    (getItem Samples.pageNoTeam.storage "ideatex_teamID" = none ∨
      getItem Samples.pageNoTeam.storage "ideatex_teamID" = some "") ∧
    Samples.dialog.teamName ≠ "" ∧
    sentCreateOrder (handlePayWithRazorpay Samples.props Samples.envOrderCreated
      Samples.dialog Samples.pageNoTeam).events = false ∧
    scriptInsertions (handlePayWithRazorpay Samples.props Samples.envOrderCreated
      Samples.dialog Samples.pageNoTeam).events = 1 :=
  have h := missing_team_requests_script_only Samples.props Samples.envOrderCreated
    Samples.dialog Samples.pageNoTeam (Or.inl (by decide))
  ⟨Or.inl (by decide), by decide, h.1, (h.2.2.2.2 (by decide)).2.1⟩

/-- One click adds the script element at most once, and only to a page that
has none; a page that has the element keeps it. -/
theorem click_script_insertions (props : Props) (env : PayEnv) (st : DialogState)
    (page : Page) :
    (page.scriptElement = true →
      scriptInsertions (handlePayWithRazorpay props env st page).events = 0 ∧
      (handlePayWithRazorpay props env st page).page.scriptElement = true) ∧
    (page.scriptElement = false →
      scriptInsertions (handlePayWithRazorpay props env st page).events = 0 ∨
      (scriptInsertions (handlePayWithRazorpay props env st page).events = 1 ∧
        (handlePayWithRazorpay props env st page).page.scriptElement = true)) := by
  by_cases hn : truthyStr st.teamName = true
  swap
  · simp [handlePayWithRazorpay, hn, scriptInsertions]
  rcases hr : env.createOrderResult with err | ⟨succ, data, msg⟩ <;>
    cases hs : page.scriptElement <;> cases hl : env.scriptLoads <;>
    cases ht : truthy (getItem page.storage "ideatex_teamID") <;>
    cases hz : page.razorpay <;> cases hc : env.checkoutError <;>
    (try (cases succ <;> cases data)) <;>
    simp [handlePayWithRazorpay, payTry, loadRazorpayScript, createOrder, openCheckout,
      payCatch, scriptInsertions, hn, hr, hs, hl, ht, hz, hc]

/-- Across every sequence of clicks on one page the script element is added at most once. -/
theorem script_inserted_at_most_once (props : Props) :
    ∀ (envs : List PayEnv) (st : DialogState) (page : Page),
      scriptInsertions (payAttempts props envs st page).2.2
        ≤ (if page.scriptElement then 0 else 1) := by
  intro envs
  induction envs with
  | nil =>
    intro st page
    simp [payAttempts, scriptInsertions]
  | cons env rest ih =>
    intro st page
    have hrest := ih (handlePayWithRazorpay props env st page).state
      (handlePayWithRazorpay props env st page).page
    have hsplit : scriptInsertions (payAttempts props (env :: rest) st page).2.2 =
        scriptInsertions (handlePayWithRazorpay props env st page).events +
        scriptInsertions (payAttempts props rest (handlePayWithRazorpay props env st page).state
          (handlePayWithRazorpay props env st page).page).2.2 := by
      simp [payAttempts, scriptInsertions, List.countP_append]
    rw [hsplit]
    obtain ⟨h1, h2⟩ := click_script_insertions props env st page
    cases hs : page.scriptElement
    · rcases h2 hs with h0 | ⟨h1', hp⟩
      · rw [h0]
        have : (if (handlePayWithRazorpay props env st page).page.scriptElement = true
            then 0 else 1) ≤ 1 := by split <;> omega
        simp only [Bool.false_eq_true, if_false]
        omega
      · rw [h1']
        rw [hp] at hrest
        simp only [if_true] at hrest
        simp only [Bool.false_eq_true, if_false]
        omega
    · obtain ⟨h0, hp⟩ := h1 hs
      rw [h0]
      rw [hp] at hrest
      simp only [if_true] at hrest ⊢
      omega

/-- C15 (the code at the failing input): two clicks on one page whose team
identifier is stored, in a world where the checkout script fails to load.
The first click aborts with the gateway-unavailable message.  The second click
finds the script element, takes the script for loaded although
`window.Razorpay` is still undefined, sends a create-order request and only
then fails, with "Payment failed to start. Try again."; the script element was
added once. -/
theorem retry_after_failed_load_requests_order :
    (handlePayWithRazorpay Samples.props Samples.envScriptFails Samples.dialog
      Samples.pageTeam).state.error = "Failed to load payment gateway. Try again later." ∧
    sentCreateOrder (handlePayWithRazorpay Samples.props Samples.envScriptFails Samples.dialog
      Samples.pageTeam).events = false ∧
    (payAttempts Samples.props [Samples.envScriptFails, Samples.envScriptFails] Samples.dialog
      Samples.pageTeam).2.1.razorpay = false ∧
    (payAttempts Samples.props [Samples.envScriptFails, Samples.envScriptFails] Samples.dialog
      Samples.pageTeam).2.2 =
      [Event.scriptAppended, Event.createOrderRequest "team42" 100 "Bearer tok",
       Event.consoleError] ∧
    sentCreateOrder (payAttempts Samples.props [Samples.envScriptFails, Samples.envScriptFails]
      Samples.dialog Samples.pageTeam).2.2 = true ∧
    (payAttempts Samples.props [Samples.envScriptFails, Samples.envScriptFails] Samples.dialog
      Samples.pageTeam).1.error = "Payment failed to start. Try again." ∧
    (payAttempts Samples.props [Samples.envScriptFails, Samples.envScriptFails] Samples.dialog
      Samples.pageTeam).1.error ≠ "Failed to load payment gateway. Try again later." := by
  decide

/-- The message chosen by the `catch` block of the click handler is never empty. -/
theorem payCatch_error_ne (err : JsError) (r : PayResult) :
    (payCatch err r).state.error ≠ "" := by
  simp only [payCatch]
  split
  · decide
  · split
    · exact orElse_ne_empty _ _ (by decide)
    · decide

/-- The state in which a click of the enabled pay button leaves the dialog. -/
theorem click_state (props : Props) (env : PayEnv) (st : DialogState) (page : Page)
    (hidle : st.isProcessing = false) :
    ((handlePayWithRazorpay props env st page).pending = none →
      (handlePayWithRazorpay props env st page).state.error ≠ "" ∧
      (handlePayWithRazorpay props env st page).state.isProcessing = false ∧
      openedCheckout (handlePayWithRazorpay props env st page).events = false) ∧
    ((handlePayWithRazorpay props env st page).pending ≠ none →
      (handlePayWithRazorpay props env st page).state.isProcessing = true ∧
      openedCheckout (handlePayWithRazorpay props env st page).events = true) := by
  by_cases hn : truthyStr st.teamName = true
  swap
  · simp [handlePayWithRazorpay, hn, hidle, openedCheckout]
  have hc1 : ∀ (err : JsError) (r : PayResult), ¬(payCatch err r).state.error = "" :=
    payCatch_error_ne
  have hc2 : ∀ (err : JsError) (r : PayResult), (payCatch err r).state.isProcessing = false :=
    fun _ _ => rfl
  have hc3 : ∀ (err : JsError) (r : PayResult), (payCatch err r).pending = r.pending :=
    fun _ _ => rfl
  have hc4 : ∀ (err : JsError) (evs : List Event) (st0 : DialogState) (pg : Page)
      (pd : Option HandlerClosure), openedCheckout evs = false →
      openedCheckout (payCatch err
        { state := st0, page := pg, events := evs, pending := pd }).events = false := by
    intro err evs st0 pg pd h
    simp only [openedCheckout, payCatch, List.any_append, List.any_cons, List.any_nil,
      Bool.or_false] at h ⊢
    simp [h]
  have ho : ∀ m : Option String, ¬orElse m "Failed to create payment order" = "" :=
    fun m => orElse_ne_empty _ _ (by decide)
  rcases hr : env.createOrderResult with err | ⟨succ, data, msg⟩ <;>
    cases hs : page.scriptElement <;> cases hl : env.scriptLoads <;>
    cases ht : truthy (getItem page.storage "ideatex_teamID") <;>
    cases hz : page.razorpay <;> cases hc : env.checkoutError <;>
    (try (cases succ <;> cases data)) <;>
    simp [handlePayWithRazorpay, payTry, loadRazorpayScript, createOrder, openCheckout,
      hn, hr, hs, hl, ht, hz, hc, hc1, hc2, hc3, ho] <;>
    (try (apply hc4)) <;>
    simp [openedCheckout]

/-- A click on the pay button runs the handler exactly when the button is
enabled; a click on the disabled button changes nothing. -/
theorem clickPay_cases (props : Props) (env : PayEnv) (st : DialogState) (page : Page) :
    (st.isProcessing = false →
      clickPay props env st page = handlePayWithRazorpay props env st page) ∧
    (st.isProcessing = true →
      clickPay props env st page
        = { state := st, page := page, events := [], pending := none }) := by
  constructor <;> intro h <;> simp [clickPay, h]

/-- C16: a click of the enabled pay button that does not open the checkout
(empty team name, script load failure, missing team identifier, create-order
rejection or thrown error, widget constructor throwing) ends with a non-empty
error and `isProcessing` false; `isProcessing` is true after the click exactly
when the checkout was opened and its completion callback is pending.  Every
run of the completion callback ends with `isProcessing` false, and with a
non-empty error unless verification succeeded and `onSubmit` returned. -/
theorem pay_action_state_invariant
    (props : Props) (env : PayEnv) (st : DialogState) (page : Page)
    (c : HandlerClosure) (henv : HandlerEnv) (response : WidgetResponse)
    (st2 : DialogState) (page2 : Page)
    (hidle : st.isProcessing = false) :
    ((handlePayWithRazorpay props env st page).pending = none →
      (handlePayWithRazorpay props env st page).state.error ≠ "" ∧
      (handlePayWithRazorpay props env st page).state.isProcessing = false) ∧
    ((handlePayWithRazorpay props env st page).state.isProcessing = true ↔
      (handlePayWithRazorpay props env st page).pending ≠ none) ∧
    ((handlePayWithRazorpay props env st page).pending ≠ none ↔
      openedCheckout (handlePayWithRazorpay props env st page).events = true) ∧
    (handler c henv response st2 page2).1.isProcessing = false ∧
    ((¬∃ v, henv.verifyResult = .ok v ∧ v.success = true ∧ henv.onSubmitError = none) →
      (handler c henv response st2 page2).1.error ≠ "") := by
  obtain ⟨h1, h2⟩ := click_state props env st page hidle
  refine ⟨fun h => ⟨(h1 h).1, (h1 h).2.1⟩, ?_, ?_, ?_, ?_⟩
  · constructor
    · intro hp hnone
      rw [(h1 hnone).2.1] at hp
      cases hp
    · intro h
      exact (h2 h).1
  · constructor
    · intro h
      exact (h2 h).2
    · intro ho hnone
      rw [(h1 hnone).2.2] at ho
      cases ho
  · rcases hv : henv.verifyResult with err | v
    · simp [handler, verifyPayment, hv]
    · cases hsucc : v.success <;> cases hcb : henv.onSubmitError <;>
        simp [handler, verifyPayment, hv, hsucc, hcb]
  · intro hno
    rcases hv : henv.verifyResult with err | v
    · simp only [handler, verifyPayment, hv]
      exact orElse_ne_empty _ _ (by decide)
    · cases hsucc : v.success
      · simp only [handler, verifyPayment, hv, hsucc]
        exact orElse_ne_empty _ _ (by decide)
      · cases hcb : henv.onSubmitError with
        | none => exact absurd ⟨v, hv, hsucc, hcb⟩ hno
        | some err =>
          simp only [handler, verifyPayment, hv, hsucc, hcb]
          exact orElse_ne_empty _ _ (by decide)

/-- C16 (witness): the rejected sample order leaves the button enabled with
the server message; the failed verification of an opened checkout does too. -/
theorem pay_action_state_invariant_witness :
    Samples.dialog.isProcessing = false ∧
    (handlePayWithRazorpay Samples.props Samples.envOrderRejected Samples.dialog
      Samples.pageTeam).pending = none ∧
    (handlePayWithRazorpay Samples.props Samples.envOrderRejected Samples.dialog
      Samples.pageTeam).state.error ≠ "" ∧
    (handlePayWithRazorpay Samples.props Samples.envOrderRejected Samples.dialog
      Samples.pageTeam).state.isProcessing = false ∧
    (handler Samples.closure Samples.henvNetworkError Samples.widgetResponse
      { Samples.dialog with isProcessing := true } Samples.pageTeam).1.error ≠ "" :=
  have h := pay_action_state_invariant Samples.props Samples.envOrderRejected Samples.dialog
    Samples.pageTeam Samples.closure Samples.henvNetworkError Samples.widgetResponse
    { Samples.dialog with isProcessing := true } Samples.pageTeam rfl
  have h1 := h.1 (by decide)
  ⟨rfl, by decide, h1.1, h1.2,
    h.2.2.2.2 (by
      intro hv
      obtain ⟨v, hv, _⟩ := hv
      cases hv)⟩

end PaymentDialog

end ECell
